import Mathlib

/-!
# Verification of the nakshatra-api astronomical position engine

Shallow embedding of the core astronomical routines of the repository
(`kundali_engine/core/ephemeris.py`, `kundali_engine/core/houses.py`, and the
nested duplicate `kundali_engine/kundali_engine/core/houses.py`) together with
proofs settling the frozen specification claims.

Conventions:
* Python `float` arithmetic is modelled by exact real arithmetic (`ℝ`);
  the Julian-day calendar code, which is exact on the claimed range, is
  modelled over `ℚ` so that it can be evaluated.
* Python `int(x)` (truncation toward zero) is `pyintQ` / `pyint`.
* Python `x % m` on floats (sign of the divisor) is `fmod`.
* Python `math.acos`, which raises `ValueError` outside `[-1, 1]`, is
  modelled in an error monad (`Except Unit`); `math.atan2 y x` is
  `Complex.arg ⟨x, y⟩`.
-/

/-! ## Python primitives over ℚ (calendar code) -/

/-- Python `int()` truncation toward zero, on rationals. -/
def pyintQ (q : ℚ) : ℤ := if 0 ≤ q then ⌊q⌋ else -⌊-q⌋

/-! ## Julian day conversion (ephemeris.py, `gregorian_to_jd` / `jd_to_gregorian`) -/

/-- Embedding of `gregorian_to_jd` (ephemeris.py, Meeus Ch. 7). -/
def gregorian_to_jd (year month day : ℤ) (hour : ℚ) : ℚ :=
  let y : ℤ := if month ≤ 2 then year - 1 else year
  let m : ℤ := if month ≤ 2 then month + 12 else month
  let A : ℤ := pyintQ ((y : ℚ) / 100)
  let B : ℤ := 2 - A + pyintQ ((A : ℚ) / 4)
  (pyintQ ((365.25 : ℚ) * ((y : ℚ) + 4716)) : ℚ)
    + (pyintQ ((30.6001 : ℚ) * ((m : ℚ) + 1)) : ℚ)
    + (day : ℚ) + (B : ℚ) - 1524.5 + hour / 24

/-- Embedding of `jd_to_gregorian` (ephemeris.py). -/
def jd_to_gregorian (jd0 : ℚ) : ℤ × ℤ × ℚ :=
  let jd := jd0 + 0.5
  let Z : ℤ := pyintQ jd
  let F : ℚ := jd - (Z : ℚ)
  let a : ℤ := pyintQ (((Z : ℚ) - 1867216.25) / 36524.25)
  let A : ℤ := if Z < 2299161 then Z else Z + 1 + a - pyintQ ((a : ℚ) / 4)
  let B : ℤ := A + 1524
  let C : ℤ := pyintQ (((B : ℚ) - 122.1) / 365.25)
  let D : ℤ := pyintQ ((365.25 : ℚ) * (C : ℚ))
  let E : ℤ := pyintQ (((B : ℚ) - (D : ℚ)) / 30.6001)
  let day : ℚ := (B : ℚ) - (D : ℚ) - (pyintQ ((30.6001 : ℚ) * (E : ℚ)) : ℚ) + F
  let month : ℤ := if E < 14 then E - 1 else E - 13
  let year : ℤ := if month > 2 then C - 4716 else C - 4715
  (year, month, day)

/-- Integer core of `gregorian_to_jd`: `gregorian_to_jd y m d h = Zint - 1/2 + h/24`. -/
def Zint (year month day : ℤ) : ℤ :=
  let y : ℤ := if month ≤ 2 then year - 1 else year
  let m : ℤ := if month ≤ 2 then month + 12 else month
  let A : ℤ := y / 100
  let B : ℤ := 2 - A + A / 4
  1461 * (y + 4716) / 4 + 306001 * (m + 1) / 10000 + day + B - 1524

/-! Integer components of `jd_to_gregorian` (valid for `Z ≥ 2299161`,
where all the intermediate quantities are nonnegative and Python's
`int()` truncation coincides with floor division). -/

def alphaI (Z : ℤ) : ℤ := (4 * Z - 7468865) / 146097
def AI (Z : ℤ) : ℤ := Z + 1 + alphaI Z - alphaI Z / 4
def BI (Z : ℤ) : ℤ := AI Z + 1524
def CI (Z : ℤ) : ℤ := (20 * BI Z - 2442) / 7305
def DI (Z : ℤ) : ℤ := 1461 * CI Z / 4
def EI (Z : ℤ) : ℤ := 10000 * (BI Z - DI Z) / 306001
def dayI (Z : ℤ) : ℤ := BI Z - DI Z - 306001 * EI Z / 10000
def monthI (Z : ℤ) : ℤ := if EI Z < 14 then EI Z - 1 else EI Z - 13
def yearI (Z : ℤ) : ℤ := if 2 < monthI Z then CI Z - 4716 else CI Z - 4715

/-- Number of days in a month, proleptic Gregorian (domain of "civil dates"). -/
def monthLen (y m : ℤ) : ℤ :=
  if m = 2 then (if y % 4 = 0 ∧ (y % 100 ≠ 0 ∨ y % 400 = 0) then 29 else 28)
  else if m = 4 ∨ m = 6 ∨ m = 9 ∨ m = 11 then 30 else 31

/-- The per-month facts checked by brute force: the inverse is correct on the
first day of the month and the discontinuous components are constant across
the month. -/
def monthProp (y m : ℤ) : Prop :=
  let Z1 := Zint y m 1
  let Z2 := Z1 + monthLen y m - 1
  2299161 ≤ Z1 ∧ yearI Z1 = y ∧ monthI Z1 = m ∧ dayI Z1 = 1 ∧
    alphaI Z1 = alphaI Z2 ∧ CI Z1 = CI Z2 ∧ EI Z1 = EI Z2

instance (y m : ℤ) : Decidable (monthProp y m) := by unfold monthProp; infer_instance

/-! ## Python float primitives over ℝ -/

/-- Python `int()` truncation toward zero, on reals. -/
noncomputable def pyint (x : ℝ) : ℤ := if 0 ≤ x then ⌊x⌋ else -⌊-x⌋

/-- Python `x % b` for floats (result has the sign of the divisor `b > 0`). -/
noncomputable def fmod (a b : ℝ) : ℝ := a - b * ⌊a / b⌋

/-- Python `math.atan2 y x`, with range `(-π, π]`. -/
noncomputable def atan2 (y x : ℝ) : ℝ := Complex.arg ⟨x, y⟩

/-! ## Ephemeris constants and angle helpers (ephemeris.py) -/

noncomputable def J2000 : ℝ := 2451545
noncomputable def DEG_TO_RAD : ℝ := Real.pi / 180
noncomputable def RAD_TO_DEG : ℝ := 180 / Real.pi

def PLANETS : List String :=
  ["Sun", "Moon", "Mercury", "Venus", "Mars", "Jupiter", "Saturn", "Rahu", "Ketu"]

def SIGNS : List String :=
  ["Aries", "Taurus", "Gemini", "Cancer", "Leo", "Virgo",
   "Libra", "Scorpio", "Sagittarius", "Capricorn", "Aquarius", "Pisces"]

def NAKSHATRAS : List String :=
  ["Ashwini", "Bharani", "Krittika", "Rohini", "Mrigashira", "Ardra",
   "Punarvasu", "Pushya", "Ashlesha", "Magha", "Purva Phalguni", "Uttara Phalguni",
   "Hasta", "Chitra", "Swati", "Vishakha", "Anuradha", "Jyeshtha",
   "Mula", "Purva Ashadha", "Uttara Ashadha", "Shravana", "Dhanishtha",
   "Shatabhisha", "Purva Bhadrapada", "Uttara Bhadrapada", "Revati"]

/-- Source helper `_n(x)` in ephemeris.py: `x % 360`. -/
noncomputable def normDeg (x : ℝ) : ℝ := fmod x 360

/-- Source helper `_r(x)` in ephemeris.py: degrees to radians. -/
noncomputable def toRad (x : ℝ) : ℝ := x * DEG_TO_RAD

/-- Source helper `_d(x)` in ephemeris.py: radians to degrees. -/
noncomputable def toDeg (x : ℝ) : ℝ := x * RAD_TO_DEG

/-! ## Nutation and obliquity (ephemeris.py, `nutation_and_obliquity`) -/

/-- Embedding of `nutation_and_obliquity`: returns `(dpsi, deps, true_obl)`. -/
noncomputable def nutation_and_obliquity (T : ℝ) : ℝ × ℝ × ℝ :=
  let omega := normDeg (125.04452 - 1934.136261 * T + 0.0020708 * T * T)
  let L0 := normDeg (280.4664567 + 360007.6982779 * T)
  let Lm := normDeg (218.3165085 + 481267.8813398 * T)
  let dpsi := (-17.20 - 0.1742 * T) * Real.sin (toRad omega)
    + -1.32 * Real.sin (toRad (2 * L0))
    + -0.23 * Real.sin (toRad (2 * Lm))
    + 0.21 * Real.sin (toRad (2 * omega))
  let deps := (9.20 + 0.0897 * T) * Real.cos (toRad omega)
    + 0.57 * Real.cos (toRad (2 * L0))
    + 0.10 * Real.cos (toRad (2 * Lm))
    + -0.09 * Real.cos (toRad (2 * omega))
  let eps0 := 23 + 26 / 60 + 21.448 / 3600
    - (46.8150 * T + 0.00059 * T * T - 0.001813 * T * T * T) / 3600
  let true_obl := eps0 + deps / 3600
  (dpsi, deps, true_obl)

/-! ## Sun (ephemeris.py, `sun_longitude`) -/

/-- Embedding of `sun_longitude`: returns `(apparent_longitude_deg, radius_AU)`. -/
noncomputable def sun_longitude (T dpsi : ℝ) : ℝ × ℝ :=
  let L0 := normDeg (280.46646 + 36000.76983 * T + 0.0003032 * T * T)
  let M := normDeg (357.52911 + 35999.05029 * T - 0.0001537 * T * T)
  let e := 0.016708634 - 0.000042037 * T - 0.0000001267 * T * T
  let M_r := toRad M
  let C := (1.914602 - 0.004817 * T - 0.000014 * T * T) * Real.sin M_r
    + (0.019993 - 0.000101 * T) * Real.sin (2 * M_r)
    + 0.000289 * Real.sin (3 * M_r)
  let sun_lon := normDeg (L0 + C)
  let v := normDeg (M + C)
  let R := (1.000001018 * (1 - e * e)) / (1 + e * Real.cos (toRad v))
  let apparent := normDeg (sun_lon + dpsi / 3600 - 20.4898 / 3600)
  (apparent, R)

/-! ## Moon (ephemeris.py, `moon_longitude`) -/

/-- Embedding of `moon_longitude`: returns `(apparent_longitude_deg, latitude_deg)`. -/
noncomputable def moon_longitude (T : ℝ) : ℝ × ℝ :=
  let Lp := normDeg (218.3164477 + 481267.88123421 * T - 0.0015786 * T * T + T ^ 3 / 538841)
  let D := normDeg (297.8501921 + 445267.1114034 * T - 0.0018819 * T * T + T ^ 3 / 545868)
  let M := normDeg (357.5291092 + 35999.0502909 * T - 0.0001536 * T * T)
  let Mp := normDeg (93.2720950 + 477198.8675055 * T + 0.0088026 * T * T + T ^ 3 / 3418)
  let F := normDeg (93.2720950 + 477198.8675055 * T + 0.0088026 * T * T)
  let E := 1 - 0.002516 * T - 0.0000074 * T * T
  let sl := 6288774 * Real.sin (toRad Mp)
    + 1274027 * Real.sin (toRad (2 * D - Mp))
    + 658314 * Real.sin (toRad (2 * D))
    + 213618 * Real.sin (toRad (2 * Mp))
    - 185116 * Real.sin (toRad M) * E
    - 114332 * Real.sin (toRad (2 * F))
    + 58793 * Real.sin (toRad (2 * D - 2 * Mp))
    + 57066 * Real.sin (toRad (2 * D - M - Mp)) * E
    + 53322 * Real.sin (toRad (2 * D + Mp))
    + 45758 * Real.sin (toRad (2 * D - M)) * E
    - 40923 * Real.sin (toRad (M - Mp)) * E
    - 34720 * Real.sin (toRad D)
    - 30383 * Real.sin (toRad (M + Mp)) * E
    + 15327 * Real.sin (toRad (2 * D - 2 * F))
    - 12528 * Real.sin (toRad (Mp + 2 * F))
    + 10980 * Real.sin (toRad (Mp - 2 * F))
    + 10675 * Real.sin (toRad (4 * D - Mp))
    + 10034 * Real.sin (toRad (3 * Mp))
    + 8548 * Real.sin (toRad (4 * D - 2 * Mp))
    - 7888 * Real.sin (toRad (2 * D + M - Mp)) * E
    - 6766 * Real.sin (toRad (2 * D + M)) * E
    - 5163 * Real.sin (toRad (D - Mp))
    + 4987 * Real.sin (toRad (D + M)) * E
    + 4036 * Real.sin (toRad (2 * D - M + Mp)) * E
    + 3994 * Real.sin (toRad (2 * D + 2 * Mp))
    + 3861 * Real.sin (toRad (4 * D))
    + 3665 * Real.sin (toRad (2 * D - 3 * Mp))
    - 2689 * Real.sin (toRad (M - 2 * Mp)) * E
    - 2602 * Real.sin (toRad (2 * D - Mp + 2 * F))
    + 2390 * Real.sin (toRad (2 * D - M - 2 * Mp)) * E
    - 2348 * Real.sin (toRad (D + Mp))
    + 2236 * Real.sin (toRad (2 * D - 2 * M)) * E * E
    - 2120 * Real.sin (toRad (M + 2 * Mp)) * E
    - 2069 * Real.sin (toRad (2 * M)) * E * E
    + 2048 * Real.sin (toRad (2 * D - 2 * M - Mp)) * E * E
    - 1773 * Real.sin (toRad (2 * D + Mp - 2 * F))
    - 1595 * Real.sin (toRad (2 * D + 2 * F))
    + 1215 * Real.sin (toRad (4 * D - M - Mp)) * E
    - 1110 * Real.sin (toRad (2 * Mp + 2 * F))
    - 892 * Real.sin (toRad (3 * D - Mp))
    - 810 * Real.sin (toRad (2 * D + M + Mp)) * E
    + 759 * Real.sin (toRad (4 * D - M - 2 * Mp)) * E
    - 713 * Real.sin (toRad (2 * M - Mp)) * E * E
    - 700 * Real.sin (toRad (2 * D + 2 * M - Mp)) * E * E
    + 691 * Real.sin (toRad (2 * D + M - 2 * Mp)) * E
    + 596 * Real.sin (toRad (2 * D - M - 2 * F)) * E
    + 549 * Real.sin (toRad (4 * D + Mp))
    + 537 * Real.sin (toRad (4 * Mp))
    + 520 * Real.sin (toRad (4 * D - M)) * E
    - 487 * Real.sin (toRad (D - 2 * Mp))
    - 399 * Real.sin (toRad (2 * D + M - 2 * F)) * E
    - 381 * Real.sin (toRad (2 * Mp - 2 * F))
    + 351 * Real.sin (toRad (D + M + Mp)) * E
    - 340 * Real.sin (toRad (3 * D - 2 * Mp))
    + 330 * Real.sin (toRad (4 * D - 3 * Mp))
    + 327 * Real.sin (toRad (2 * D - M + 2 * Mp)) * E
    - 323 * Real.sin (toRad (2 * M + Mp)) * E * E
    + 299 * Real.sin (toRad (D + M - Mp)) * E
    + 294 * Real.sin (toRad (2 * D + 3 * Mp))
  let longitude := normDeg (Lp + sl / 1000000)
  let sb := 5128122 * Real.sin (toRad F)
    + 280602 * Real.sin (toRad (Mp + F)) + 277693 * Real.sin (toRad (Mp - F))
    + 173237 * Real.sin (toRad (2 * D - F)) + 55413 * Real.sin (toRad (2 * D - Mp + F))
    + 46271 * Real.sin (toRad (2 * D - Mp - F)) + 32573 * Real.sin (toRad (2 * D + F))
    + 17198 * Real.sin (toRad (2 * Mp + F)) + 9266 * Real.sin (toRad (2 * D + Mp - F))
    + 8822 * Real.sin (toRad (2 * Mp - F)) + 8216 * Real.sin (toRad (2 * D - M - F)) * E
    + 4324 * Real.sin (toRad (2 * D - 2 * Mp - F)) + 4200 * Real.sin (toRad (2 * D + Mp + F))
    - 3359 * Real.sin (toRad (2 * D + M - F)) * E + 2463 * Real.sin (toRad (2 * D - M - Mp + F)) * E
    + 2211 * Real.sin (toRad (2 * D - M + F)) * E + 2065 * Real.sin (toRad (2 * D - M - Mp - F)) * E
    - 1870 * Real.sin (toRad (M - Mp - F)) * E + 1828 * Real.sin (toRad (4 * D - Mp - F))
    - 1794 * Real.sin (toRad (M + F)) * E - 1749 * Real.sin (toRad (3 * F))
    - 1565 * Real.sin (toRad (M - Mp + F)) * E - 1491 * Real.sin (toRad (D + F))
    - 1475 * Real.sin (toRad (M + Mp + F)) * E - 1410 * Real.sin (toRad (M + Mp - F)) * E
    - 1344 * Real.sin (toRad (M - F)) * E - 1335 * Real.sin (toRad (D - F))
    + 1107 * Real.sin (toRad (3 * Mp + F)) + 1021 * Real.sin (toRad (4 * D - F))
    + 833 * Real.sin (toRad (4 * D - Mp + F))
  let latitude := sb / 1000000
  (longitude, latitude)

/-! ## Rahu / Ketu (ephemeris.py, `rahu_longitude`, `ketu_longitude`) -/

/-- Embedding of `rahu_longitude` (true lunar node). -/
noncomputable def rahu_longitude (T : ℝ) : ℝ :=
  let omega := 125.04452 - 1934.136261 * T + 0.0020708 * T * T + T * T * T / 450000
  let M := normDeg (357.5291 + 35999.050 * T)
  let Mp := normDeg (93.2720 + 477198.868 * T)
  let omega_true := omega - 1.4979 * Real.sin (toRad (2 * (fmod omega 360)))
    - 0.1500 * Real.sin (toRad M)
    - 0.1226 * Real.sin (toRad (2 * Mp))
    + 0.1176 * Real.sin (toRad (2 * omega))
    - 0.0801 * Real.sin (toRad (M + 2 * Mp))
  normDeg omega_true

/-- Embedding of `ketu_longitude`: `_n(rahu_longitude(T) + 180)`. -/
noncomputable def ketu_longitude (T : ℝ) : ℝ := normDeg (rahu_longitude T + 180)

/-! ## VSOP87 planets (ephemeris.py, `_solve_kepler` .. `planet_geocentric`) -/

/-- The Newton iteration of `_solve_kepler` (fuel-limited `for` loop with the
`break` on `|dE| < tol`). -/
noncomputable def keplerLoop (M_r e tol : ℝ) : ℕ → ℝ → ℝ
  | 0, E => E
  | n + 1, E =>
    let dE := (M_r - E + e * Real.sin E) / (1 - e * Real.cos E)
    let E2 := E + dE
    if |dE| < tol then E2 else keplerLoop M_r e tol n E2

/-- Embedding of `_solve_kepler` (default tolerance `1e-9`, 50 iterations);
returns `E` in degrees. -/
noncomputable def solve_kepler (M_deg e : ℝ) : ℝ :=
  let M_r := toRad M_deg
  let E0 := M_r + e * Real.sin M_r * (1 + e * Real.cos M_r)
  toDeg (keplerLoop M_r e 1e-9 50 E0)

/-- Embedding of `_true_anomaly`: returns `(true_anomaly_deg, radius_vector)`. -/
noncomputable def true_anomaly (M_deg e : ℝ) : ℝ × ℝ :=
  let E := toRad (solve_kepler M_deg e)
  let v := 2 * atan2 (Real.sqrt (1 + e) * Real.sin (E / 2))
    (Real.sqrt (1 - e) * Real.cos (E / 2))
  let r := (1 - e * e) / (1 + e * Real.cos v)
  (toDeg v, r)

/-- Embedding of `_heliocentric_coords`: returns `(lh, bh, rh)`. -/
noncomputable def heliocentric_coords (v_deg r a om_deg w_deg i_deg : ℝ) : ℝ × ℝ × ℝ :=
  let u := toRad (normDeg (v_deg + w_deg))
  let om := toRad om_deg
  let i := toRad i_deg
  let r_au := r * a
  let x := r_au * (Real.cos om * Real.cos u - Real.sin om * Real.sin u * Real.cos i)
  let y := r_au * (Real.sin om * Real.cos u + Real.cos om * Real.sin u * Real.cos i)
  let z := r_au * Real.sin u * Real.sin i
  let rh := Real.sqrt (x * x + y * y + z * z)
  let lh := normDeg (toDeg (atan2 y x))
  let bh := toDeg (Real.arcsin (z / rh))
  (lh, bh, rh)

/-- Embedding of `_geo_from_helio`: returns `(lam, beta)`. -/
noncomputable def geo_from_helio (lp bp rp le be re : ℝ) : ℝ × ℝ :=
  let x := rp * Real.cos (toRad bp) * Real.cos (toRad lp)
    - re * Real.cos (toRad be) * Real.cos (toRad le)
  let y := rp * Real.cos (toRad bp) * Real.sin (toRad lp)
    - re * Real.cos (toRad be) * Real.sin (toRad le)
  let z := rp * Real.sin (toRad bp) - re * Real.sin (toRad be)
  let lam := normDeg (toDeg (atan2 y x))
  let beta := toDeg (atan2 z (Real.sqrt (x * x + y * y)))
  (lam, beta)

/-- Embedding of `_earth_helio`: Earth = Sun geocentric + 180°, latitude 0. -/
noncomputable def earth_helio (T sun_geo_lon sun_R : ℝ) : ℝ × ℝ × ℝ :=
  (normDeg (sun_geo_lon + 180), 0, sun_R)

/-- Embedding of `planet_geocentric`: Meeus orbital elements per body, Kepler
solve, heliocentric→geocentric conversion, plus the Jupiter/Saturn mutual
perturbation terms; any body name other than the five handled planets falls
through to `(0, 0)`. -/
noncomputable def planet_geocentric (planet : String) (T sun_geo_lon sun_R : ℝ) : ℝ × ℝ :=
  let eh := earth_helio T sun_geo_lon sun_R
  let le := eh.1
  let be := eh.2.1
  let re := eh.2.2
  if planet = "Mercury" then
    let a := 0.387098310
    let e := 0.20563175 + 0.000020407 * T - 0.0000000283 * T * T
    let i := 7.004986 - 0.0059516 * T
    let Om := normDeg (48.330893 + 1.1861883 * T + 0.00017542 * T * T)
    let w := normDeg (77.456119 + 1.5564776 * T + 0.00029544 * T * T)
    let L := normDeg (252.250906 + 149474.0722491 * T + 0.00030350 * T * T)
    let M := normDeg (L - w)
    let vr := true_anomaly M e
    let h := heliocentric_coords vr.1 vr.2 a Om (normDeg (w - Om)) i
    geo_from_helio h.1 h.2.1 h.2.2 le be re
  else if planet = "Venus" then
    let a := 0.723329820
    let e := 0.00677323 - 0.000047515 * T + 0.0000000914 * T * T
    let i := 3.394662 - 0.0008568 * T
    let Om := normDeg (76.679920 + 0.9011206 * T + 0.00040618 * T * T)
    let w := normDeg (131.563703 + 1.4022288 * T - 0.00107618 * T * T)
    let L := normDeg (181.979801 + 58517.8156760 * T + 0.00000165 * T * T)
    let M := normDeg (L - w)
    let vr := true_anomaly M e
    let h := heliocentric_coords vr.1 vr.2 a Om (normDeg (w - Om)) i
    geo_from_helio h.1 h.2.1 h.2.2 le be re
  else if planet = "Mars" then
    let a := 1.523679342
    let e := 0.09341233 - 0.000092064 * T - 0.000000077 * T * T
    let i := 1.849726 - 0.0006011 * T + 0.00001276 * T * T
    let Om := normDeg (49.558093 + 0.7720959 * T + 0.00001557 * T * T)
    let w := normDeg (336.060234 + 1.8410449 * T + 0.00013477 * T * T)
    let L := normDeg (355.433275 + 19140.2993313 * T + 0.00000261 * T * T)
    let M := normDeg (L - w)
    let vr := true_anomaly M e
    let h := heliocentric_coords vr.1 vr.2 a Om (normDeg (w - Om)) i
    geo_from_helio h.1 h.2.1 h.2.2 le be re
  else if planet = "Jupiter" then
    let a := 5.202603209
    let e := 0.04849485 + 0.000163244 * T - 0.0000004719 * T * T
    let i := 1.303270 - 0.0019872 * T + 0.00003318 * T * T
    let Om := normDeg (100.464407 + 1.0209774 * T + 0.00040315 * T * T)
    let w := normDeg (14.331207 + 1.6126352 * T + 0.00103042 * T * T)
    let L := normDeg (34.351519 + 3034.9056606 * T - 0.00008501 * T * T)
    let M := normDeg (L - w)
    let vr := true_anomaly M e
    let h := heliocentric_coords vr.1 vr.2 a Om (normDeg (w - Om)) i
    let g := geo_from_helio h.1 h.2.1 h.2.2 le be re
    -- (the source also computes an unused local `Jm` here)
    let Mj := toRad M
    let Ms := toRad (normDeg (316.967 + 1221.5515 * T))
    let geo_l := normDeg (g.1
      - 0.332 * Real.cos (2 * Mj - 5 * Ms - toRad 67.6)
      - 0.056 * Real.cos (2 * Mj - 2 * Ms + toRad 21)
      + 0.042 * Real.cos (3 * Mj - 5 * Ms + toRad 21)
      - 0.036 * Real.cos (Mj - 2 * Ms)
      + 0.022 * Real.cos (toRad 197.2 + 1.52 * T * toRad 100)
      + 0.023 * Real.cos (2 * Mj - 3 * Ms + toRad 52)
      - 0.016 * Real.cos (2 * Mj - 5 * Ms - toRad 69.9))
    (geo_l, g.2)
  else if planet = "Saturn" then
    let a := 9.554909192
    let e := 0.05554814 - 0.000346641 * T - 0.0000006436 * T * T
    let i := 2.488879 - 0.0037362 * T - 0.00001519 * T * T
    let Om := normDeg (113.665503 + 0.8770880 * T - 0.00012176 * T * T)
    let w := normDeg (93.057237 + 1.9637613 * T + 0.00083753 * T * T)
    let L := normDeg (50.077444 + 1222.1138488 * T + 0.00021004 * T * T)
    let M := normDeg (L - w)
    let vr := true_anomaly M e
    let h := heliocentric_coords vr.1 vr.2 a Om (normDeg (w - Om)) i
    let g := geo_from_helio h.1 h.2.1 h.2.2 le be re
    let Mj := toRad (normDeg (19.9 + 3034.906 * T))
    let Ms := toRad M
    let geo_l := normDeg (g.1
      + 0.812 * Real.sin (2 * Mj - 5 * Ms - toRad 67.6)
      - 0.229 * Real.cos (2 * Mj - 4 * Ms - toRad 2)
      + 0.119 * Real.sin (Mj - 2 * Ms - toRad 3)
      + 0.046 * Real.sin (2 * Mj - 6 * Ms - toRad 69)
      + 0.014 * Real.sin (Mj - 3 * Ms + toRad 32))
    let geo_b := g.2 + (-0.020 * Real.cos (2 * Mj - 4 * Ms - toRad 2)
      + 0.018 * Real.sin (2 * Mj - 6 * Ms - toRad 49))
    (geo_l, geo_b)
  else
    (0, 0)

/-! ## Retrograde detection (ephemeris.py, `_is_retrograde`) -/

open Classical in
/-- Embedding of `_is_retrograde`. -/
noncomputable def is_retrograde (planet : String) (jd sun_geo_lon sun_R : ℝ) : Bool :=
  if planet = "Rahu" ∨ planet = "Ketu" then true
  else if planet = "Sun" ∨ planet = "Moon" then false
  else
    let T0 := (jd - J2000) / 36525
    let T1 := ((jd + 0.5) - J2000) / 36525
    let dpsi0 := (nutation_and_obliquity T0).1
    let dpsi1 := (nutation_and_obliquity T1).1
    let s0 := sun_longitude T0 dpsi0
    let s1 := sun_longitude T1 dpsi1
    let l0 := (planet_geocentric planet T0 s0.1 s0.2).1
    let l1 := (planet_geocentric planet T1 s1.1 s1.2).1
    let diff := fmod (l1 - l0 + 360) 360
    if 180 < diff then true else false

/-! ## Ayanamsa (ephemeris.py, `AYANAMSA_TABLE`, `get_ayanamsa`,
`tropical_to_sidereal`) -/

/-- Embedding of `AYANAMSA_TABLE`: `(j2000 reference, rate per year)`. -/
noncomputable def AYANAMSA_TABLE : List (String × (ℝ × ℝ)) :=
  [("lahiri", (23.85315, 50.2882 / 3600)),
   ("raman", (22.46000, 50.2388 / 3600)),
   ("kp", (23.86350, 50.2388 / 3600)),
   ("fagan", (24.74170, 50.2388 / 3600))]

/-- Python `str.lower()` (characterwise, as used on the ASCII system names). -/
def pyLower (s : String) : String := ⟨s.data.map Char.toLower⟩

/-- Embedding of `get_ayanamsa`: table lookup on the lowercased system name,
falling back to the `"lahiri"` entry. -/
noncomputable def get_ayanamsa (T : ℝ) (system : String) : ℝ :=
  let p := (AYANAMSA_TABLE.lookup (pyLower system)).getD (23.85315, 50.2882 / 3600)
  p.1 + p.2 * T * 100

/-- Embedding of `tropical_to_sidereal`. -/
noncomputable def tropical_to_sidereal (lon T : ℝ) (ayanamsa : String) : ℝ :=
  normDeg (lon - get_ayanamsa T ayanamsa)

/-! ## Sidereal time and Ascendant (ephemeris.py, `gmst`, `compute_ascendant`) -/

/-- Embedding of `gmst` (ephemeris.py). -/
noncomputable def gmst (jd : ℝ) : ℝ :=
  let T := (jd - J2000) / 36525
  normDeg (280.46061837 + 360.98564736629 * (jd - J2000) + 0.000387933 * T * T
    - T * T * T / 38710000)

namespace Ephemeris

open Classical in
/-- Embedding of `compute_ascendant` (ephemeris.py): conditional quadrant
correction `x < 0 → +180°`. -/
noncomputable def compute_ascendant (jd lat lon dpsi obl : ℝ) : ℝ :=
  let gst := gmst jd
  let eq_eq := dpsi * Real.cos (toRad obl) / 15
  let last := normDeg (gst + lon + eq_eq * 15 / 3600)
  let ramc := toRad last
  let e := toRad obl
  let phi := toRad lat
  let y := -Real.cos ramc
  let x := Real.sin e * Real.tan phi + Real.cos e * Real.sin ramc
  let asc := normDeg (toDeg (atan2 y x))
  if x < 0 then normDeg (asc + 180) else asc

end Ephemeris

/-! ## Chart assembly (ephemeris.py, `PlanetPosition`, `compute_all_positions`) -/

/-- Embedding of the `PlanetPosition` dataclass. -/
structure PlanetPosition where
  name : String
  tropical_longitude : ℝ
  sidereal_longitude : ℝ
  sign_index : ℤ
  sign : String
  degree_in_sign : ℝ
  nakshatra_index : ℤ
  nakshatra : String
  nakshatra_pada : ℤ
  is_retrograde : Bool

open Classical in
/-- Python `round` to an integer, half-to-even (banker's rounding). -/
noncomputable def roundHalfEven (x : ℝ) : ℤ :=
  if Int.fract x < 1/2 then ⌊x⌋
  else if 1/2 < Int.fract x then ⌊x⌋ + 1
  else if Even ⌊x⌋ then ⌊x⌋ else ⌊x⌋ + 1

/-- Python `round(x, 6)`, idealized over ℝ. -/
noncomputable def round6 (x : ℝ) : ℝ := (roundHalfEven (x * 1000000) : ℝ) / 1000000

/-- Embedding of `compute_all_positions` (ephemeris.py): returns the
association list of the nine planet positions (keyed by planet name, in
`PLANETS` order), the tropical ascendant and `T`. -/
noncomputable def compute_all_positions (jd lat lon : ℝ) (ayanamsa : String) :
    List (String × PlanetPosition) × ℝ × ℝ :=
  let T := (jd - J2000) / 36525
  let nut := nutation_and_obliquity T
  let dpsi := nut.1
  let obl := nut.2.2
  let s := sun_longitude T dpsi
  let sg := s.1
  let sr := s.2
  let positions := PLANETS.map (fun planet =>
    let trop := if planet = "Sun" then sg
      else if planet = "Moon" then (moon_longitude T).1
      else if planet = "Rahu" then rahu_longitude T
      else if planet = "Ketu" then normDeg (rahu_longitude T + 180)
      else (planet_geocentric planet T sg sr).1
    let retro := is_retrograde planet jd sg sr
    let sid := tropical_to_sidereal trop T ayanamsa
    let sign_idx := pyint (sid / 30) % 12
    let deg := fmod sid 30
    let nak_idx := pyint (sid / (360 / 27)) % 27
    let nak_pada := pyint (fmod sid (360 / 27) / (360 / 27 / 4)) + 1
    (planet, PlanetPosition.mk planet (round6 trop) (round6 sid) sign_idx
      (SIGNS.getD sign_idx.toNat "") (round6 deg) nak_idx
      (NAKSHATRAS.getD nak_idx.toNat "") nak_pada retro))
  let asc_trop := Ephemeris.compute_ascendant jd lat lon dpsi obl
  (positions, asc_trop, T)

/-! ## House systems (houses.py) -/

namespace Houses

/-- Embedding of `compute_ascendant` (houses.py): note the UNCONDITIONAL
`+ 180°` after `atan2` (the module comments that the old conditional
`x < 0 → +180` "was wrong"). -/
noncomputable def compute_ascendant (lst latitude_deg obliquity : ℝ) : ℝ :=
  let ramc := lst
  let e := obliquity * DEG_TO_RAD
  let phi := latitude_deg * DEG_TO_RAD
  let ramc_r := ramc * DEG_TO_RAD
  let y := -Real.cos ramc_r
  let x := Real.sin e * Real.tan phi + Real.cos e * Real.sin ramc_r
  let asc := atan2 y x * RAD_TO_DEG + 180
  fmod asc 360

/-- Embedding of `compute_midheaven` (houses.py). -/
noncomputable def compute_midheaven (lst obliquity : ℝ) : ℝ :=
  let e := obliquity * DEG_TO_RAD
  let ramc_r := lst * DEG_TO_RAD
  let mc := atan2 (Real.sin ramc_r) (Real.cos ramc_r * Real.cos e) * RAD_TO_DEG
  fmod mc 360

/-- Embedding of `whole_sign_cusps`. -/
noncomputable def whole_sign_cusps (ascendant : ℝ) : List ℝ :=
  let lagna_sign := (pyint (ascendant / 30) : ℝ) * 30
  (List.range 12).map (fun i : ℕ => fmod (lagna_sign + 30 * (i : ℝ)) 360)

/-- Embedding of `equal_house_cusps`. -/
noncomputable def equal_house_cusps (ascendant : ℝ) : List ℝ :=
  (List.range 12).map (fun i : ℕ => fmod (ascendant + 30 * (i : ℝ)) 360)

open Classical in
/-- Python `math.acos`: raises `ValueError` (modelled as `.error`) outside
`[-1, 1]`. -/
noncomputable def acosE (x : ℝ) : Except Unit ℝ :=
  if x < -1 ∨ 1 < x then .error () else .ok (Real.arccos x)

open Classical in
/-- The fuel-limited iteration of `placidus_cusp` (houses.py): on `break`
the PREVIOUS estimate is kept, matching the Python control flow. -/
noncomputable def placidusIter (e phi ramc fraction : ℝ) (above : Bool) :
    ℕ → ℝ → Except Unit ℝ
  | 0, ra => .ok ra
  | n + 1, ra => do
    let dec := Real.arcsin (Real.sin e * Real.sin ra)
    let dsa ← acosE (-Real.tan phi * Real.tan dec)
    let ra_new := if above then ramc + (1 - fraction) * (Real.pi - dsa)
      else ramc - (1 - fraction) * (Real.pi - dsa)
    if |ra_new - ra| < 1e-10 then .ok ra
    else placidusIter e phi ramc fraction above n ra_new

open Classical in
/-- Embedding of the inner `placidus_cusp` (houses.py). -/
noncomputable def placidus_cusp (lst e phi fraction : ℝ) (above_horizon : Bool) :
    Except Unit ℝ := do
  let ramc := lst * DEG_TO_RAD
  let ra0 := if above_horizon then fmod (ramc + fraction * Real.pi) (2 * Real.pi)
    else fmod (ramc - fraction * Real.pi) (2 * Real.pi)
  let ra ← placidusIter e phi ramc fraction above_horizon 20 ra0
  let lon := atan2 (Real.sin ra * Real.cos e) (Real.cos ra) * RAD_TO_DEG
  pure (fmod lon 360)

/-- Embedding of `placidus_cusps` (houses.py): the `try/except` around the
four intermediate cusps becomes a `match` on the error monad, with the
Equal-House fallback in the error case. -/
noncomputable def placidus_cusps (lst latitude_deg obliquity : ℝ) : List ℝ :=
  let asc := compute_ascendant lst latitude_deg obliquity
  let mc := compute_midheaven lst obliquity
  let ic := fmod (mc + 180) 360
  let dsc := fmod (asc + 180) 360
  let e := obliquity * DEG_TO_RAD
  let phi := latitude_deg * DEG_TO_RAD
  let res : Except Unit (ℝ × ℝ × ℝ × ℝ) := do
    let h12 ← placidus_cusp lst e phi (1/3) true
    let h11 ← placidus_cusp lst e phi (2/3) true
    let h2 ← placidus_cusp lst e phi (1/3) false
    let h3 ← placidus_cusp lst e phi (2/3) false
    pure (h12, h11, h2, h3)
  match res with
  | .error _ => equal_house_cusps asc
  | .ok (h12, h11, h2, h3) =>
    [asc, h2, h3, ic, fmod (ic + 30) 360, fmod (ic + 60) 360,
     dsc, h11, h12, mc, fmod (mc + 30) 360, fmod (mc + 60) 360]

/-- Embedding of `koch_cusps` (houses.py): `[mc]` followed by
`mc + arc·i/3 (mod 360)` for `i = 1..11`, `arc = (asc − mc) mod 360`. -/
noncomputable def koch_cusps (lst latitude_deg obliquity : ℝ) : List ℝ :=
  let asc := compute_ascendant lst latitude_deg obliquity
  let mc := compute_midheaven lst obliquity
  let arc := fmod (asc - mc) 360
  mc :: (List.range 11).map (fun i : ℕ => fmod (mc + arc * ((i : ℝ) + 1) / 3) 360)

/-- Embedding of `get_house_cusps` (houses.py). -/
noncomputable def get_house_cusps (system : String) (lst latitude obliquity : ℝ) :
    List ℝ × ℝ × ℝ :=
  let asc := compute_ascendant lst latitude obliquity
  let mc := compute_midheaven lst obliquity
  let cusps := if system = "placidus" then placidus_cusps lst latitude obliquity
    else if system = "koch" then koch_cusps lst latitude obliquity
    else if system = "equal" then equal_house_cusps asc
    else whole_sign_cusps asc
  (cusps, asc, mc)

open Classical in
/-- The descending scan `for i in range(11, -1, -1)` of `planet_house_number`
(houses.py), over the explicit index list. The Python indexings
`cusps_sidereal[i]` and `cusps_sidereal[(i + 1) % 12]` are modelled by `getD`
with default `0`; every index taken is at most 11, so on 12-entry cusp lists
(the length every house system produces) the default is never consulted. On
shorter non-empty lists the source raises `IndexError` instead of returning,
which this total embedding does not model: the theorems below therefore
quantify only over 12-entry lists. -/
noncomputable def scanHouse (lon : ℝ) (cusps : List ℝ) : List ℕ → ℤ
  | [] => 1
  | i :: rest =>
    let c_start := cusps.getD i 0
    let c_next := cusps.getD ((i + 1) % 12) 0
    if c_next > c_start then
      (if c_start ≤ lon ∧ lon < c_next then (i : ℤ) + 1 else scanHouse lon cusps rest)
    else
      (if lon ≥ c_start ∨ lon < c_next then (i : ℤ) + 1 else scanHouse lon cusps rest)

open Classical in
/-- Embedding of `planet_house_number` (houses.py): whole-sign-shaped cusp
sets are detected (all cusps within 0.1° of 30° spacing) and handled by
sign-index arithmetic; other sets by the descending interval scan. As in
`scanHouse`, the indexings `cusps_sidereal[i]` of the detection loop are
modelled by `getD` with default `0`, which is faithful on 12-entry lists
(all indexes stay below 12) but collapses the `IndexError` the source raises
on non-empty lists shorter than 12: theorems about this function therefore
quantify only over 12-entry lists. -/
noncomputable def planet_house_number (planet_sidereal_lon : ℝ) (cusps_sidereal : List ℝ) : ℤ :=
  if cusps_sidereal = [] then 1
  else
    let lagna_cusp := cusps_sidereal.getD 0 0
    if ∀ j < 11, |fmod (cusps_sidereal.getD (j + 1) 0 - lagna_cusp
        - (((j : ℤ) + 1 : ℤ) : ℝ) * 30) 360| < 0.1 then
      let lagna_sign_idx := pyint (lagna_cusp / 30) % 12
      let planet_sign_idx := pyint (planet_sidereal_lon / 30) % 12
      (planet_sign_idx - lagna_sign_idx) % 12 + 1
    else
      scanHouse planet_sidereal_lon cusps_sidereal (List.range 12).reverse

end Houses

/-! ## Nested duplicate module (kundali_engine/kundali_engine/core/houses.py) -/

namespace HousesNested

open Classical in
/-- Embedding of the nested `compute_ascendant`: pole-proximity special case
and CONDITIONAL quadrant correction (`x < 0 → +180°`). -/
noncomputable def compute_ascendant (lst latitude_deg obliquity : ℝ) : ℝ :=
  let ramc := lst
  let e := obliquity * DEG_TO_RAD
  let phi := latitude_deg * DEG_TO_RAD
  let ramc_r := ramc * DEG_TO_RAD
  let y := -Real.cos ramc_r
  let x := Real.sin e * Real.tan phi + Real.cos e * Real.sin ramc_r
  let asc := if |x| < 1e-10 then (if y < 0 then 90 else 270)
    else atan2 y x * RAD_TO_DEG
  let asc2 := if x < 0 then asc + 180 else asc
  fmod asc2 360

open Classical in
/-- The descending scan of the nested `planet_house_number`. -/
noncomputable def scanNested (lon : ℝ) (cusps : List ℝ) : List ℕ → ℤ
  | [] => 1
  | i :: rest =>
    let cusp := cusps.getD i 0
    if lon ≥ cusp ∨ (cusp > cusps.getD 0 0 ∧ lon < cusps.getD 0 0) then (i : ℤ) + 1
    else scanNested lon cusps rest

/-- Embedding of the nested `planet_house_number` variant. -/
noncomputable def planet_house_number (planet_sidereal_lon : ℝ)
    (cusps_sidereal : List ℝ) : ℤ :=
  scanNested planet_sidereal_lon cusps_sidereal (List.range 12).reverse

end HousesNested

/-! ## Spec-side statement helper for the retrograde claim -/

/-- The forward half-day angular motion the spec uses to characterize
retrogradation: geocentric longitude at `JD + 0.5` (with the Sun recomputed
at the later epoch) minus the longitude at `JD`, normalized to `[0, 360)`. -/
noncomputable def forward_half_day_motion (planet : String) (jd : ℝ) : ℝ :=
  let T0 := (jd - J2000) / 36525
  let T1 := ((jd + 0.5) - J2000) / 36525
  let s0 := sun_longitude T0 (nutation_and_obliquity T0).1
  let s1 := sun_longitude T1 (nutation_and_obliquity T1).1
  fmod ((planet_geocentric planet T1 s1.1 s1.2).1
    - (planet_geocentric planet T0 s0.1 s0.2).1) 360

/-! ## Proofs -/

lemma pyintQ_of_nonneg {q : ℚ} (h : 0 ≤ q) : pyintQ q = ⌊q⌋ := if_pos h

lemma pyintQ_intCast_div (a b : ℤ) (ha : 0 ≤ a) (hb : 0 < b) :
    pyintQ ((a : ℚ) / (b : ℚ)) = a / b := by
  rw [pyintQ_of_nonneg (by positivity)]
  obtain ⟨n, rfl⟩ : ∃ n : ℕ, b = (n : ℤ) := ⟨b.toNat, (Int.toNat_of_nonneg hb.le).symm⟩
  rw [show ((n : ℤ) : ℚ) = (n : ℚ) by push_cast; rfl]
  exact Rat.floor_intCast_div_natCast a n

lemma BD_ge (Z : ℤ) : 123 ≤ BI Z - DI Z := by
  unfold DI CI BI AI alphaI
  omega

/-- Link: `jd_to_gregorian` agrees with the integer components on half-integer inputs. -/
theorem jd_to_gregorian_eq (Z : ℤ) (h : ℚ) (hZ : 2299161 ≤ Z) (h0 : 0 ≤ h) (h24 : h < 24) :
    jd_to_gregorian ((Z : ℚ) - 1/2 + h / 24) = (yearI Z, monthI Z, (dayI Z : ℚ) + h / 24) := by
  have hBD := BD_ge Z
  have hB : 0 ≤ 20 * BI Z - 2442 := by unfold BI AI alphaI; omega
  have hC0 : 0 ≤ CI Z := by unfold CI BI AI alphaI; omega
  have hE0 : 0 ≤ EI Z := by unfold EI; omega
  have hal : 0 ≤ alphaI Z := by unfold alphaI; omega
  have e0 : (Z : ℚ) - 1/2 + h / 24 + 0.5 = (Z : ℚ) + h / 24 := by
    rw [show (0.5 : ℚ) = 1/2 by norm_num]; ring
  have hfrac : (0 : ℚ) ≤ h / 24 ∧ h / 24 < 1 := by
    constructor
    · positivity
    · rw [div_lt_one (by norm_num)]; linarith
  have eZ : pyintQ ((Z : ℚ) + h / 24) = Z := by
    rw [pyintQ_of_nonneg (by positivity), add_comm, Int.floor_add_int,
      Int.floor_eq_zero_iff.2 (by exact ⟨hfrac.1, hfrac.2⟩)]
    ring
  have eF : (Z : ℚ) + h / 24 - (Z : ℚ) = h / 24 := by ring
  simp only [jd_to_gregorian]
  rw [e0, eZ, eF]
  have ea : ((Z : ℚ) - 1867216.25) / 36524.25 = ((4 * Z - 7468865 : ℤ) : ℚ) / ((146097 : ℤ) : ℚ) := by
    push_cast
    rw [div_eq_div_iff (by norm_num) (by norm_num)]
    ring_nf
  rw [ea, pyintQ_intCast_div _ _ (by omega) (by norm_num)]
  have ea2 : ((4 * Z - 7468865) / (146097 : ℤ) : ℤ) = alphaI Z := rfl
  rw [ea2]
  have eA : pyintQ ((alphaI Z : ℚ) / 4) = alphaI Z / 4 := by
    rw [show ((4 : ℚ)) = ((4 : ℤ) : ℚ) by norm_num, pyintQ_intCast_div _ _ hal (by norm_num)]
  rw [eA]
  rw [if_neg (show ¬(Z < 2299161) by omega)]
  have eAI : Z + 1 + alphaI Z - alphaI Z / 4 = AI Z := rfl
  rw [eAI]
  have eBI : AI Z + 1524 = BI Z := rfl
  rw [eBI]
  have eC : ((BI Z : ℚ) - 122.1) / 365.25 = ((20 * BI Z - 2442 : ℤ) : ℚ) / ((7305 : ℤ) : ℚ) := by
    push_cast
    rw [div_eq_div_iff (by norm_num) (by norm_num)]
    ring_nf
  rw [eC, pyintQ_intCast_div _ _ hB (by norm_num)]
  have eCI : (20 * BI Z - 2442) / (7305 : ℤ) = CI Z := rfl
  rw [eCI]
  have eD : (365.25 : ℚ) * (CI Z : ℚ) = ((1461 * CI Z : ℤ) : ℚ) / ((4 : ℤ) : ℚ) := by
    push_cast; ring_nf
  rw [eD, pyintQ_intCast_div _ _ (by omega) (by norm_num)]
  have eDI : 1461 * CI Z / (4 : ℤ) = DI Z := rfl
  rw [eDI]
  have eE : ((BI Z : ℚ) - (DI Z : ℚ)) / 30.6001
      = ((10000 * (BI Z - DI Z) : ℤ) : ℚ) / ((306001 : ℤ) : ℚ) := by
    push_cast
    rw [div_eq_div_iff (by norm_num) (by norm_num)]
    ring_nf
  rw [eE, pyintQ_intCast_div _ _ (by omega) (by norm_num)]
  have eEI : 10000 * (BI Z - DI Z) / (306001 : ℤ) = EI Z := rfl
  rw [eEI]
  have eday : (30.6001 : ℚ) * (EI Z : ℚ) = ((306001 * EI Z : ℤ) : ℚ) / ((10000 : ℤ) : ℚ) := by
    push_cast; ring_nf
  rw [eday, pyintQ_intCast_div _ _ (by omega) (by norm_num)]
  refine Prod.ext rfl (Prod.ext rfl ?_)
  show (BI Z : ℚ) - (DI Z : ℚ) - ((306001 * EI Z / 10000 : ℤ) : ℚ) + h / 24
      = (dayI Z : ℚ) + h / 24
  unfold dayI
  push_cast
  ring

lemma emul1 (y : ℤ) (hy : 0 ≤ y) :
    pyintQ ((365.25 : ℚ) * ((y : ℚ) + 4716)) = 1461 * (y + 4716) / 4 := by
  rw [show (365.25 : ℚ) * ((y : ℚ) + 4716) = ((1461 * (y + 4716) : ℤ) : ℚ) / ((4 : ℤ) : ℚ) by
    push_cast; ring_nf]
  exact pyintQ_intCast_div _ _ (by omega) (by norm_num)

lemma emul2 (m : ℤ) (hm : 0 ≤ m) :
    pyintQ ((30.6001 : ℚ) * ((m : ℚ) + 1)) = 306001 * (m + 1) / 10000 := by
  rw [show (30.6001 : ℚ) * ((m : ℚ) + 1) = ((306001 * (m + 1) : ℤ) : ℚ) / ((10000 : ℤ) : ℚ) by
    push_cast; ring_nf]
  exact pyintQ_intCast_div _ _ (by omega) (by norm_num)

/-- Link: `gregorian_to_jd` agrees with its integer core. -/
theorem gregorian_to_jd_eq (y m d : ℤ) (h : ℚ) (hy : 1 ≤ y) (hm1 : 1 ≤ m) (hm2 : m ≤ 12) :
    gregorian_to_jd y m d h = (Zint y m d : ℚ) - 1/2 + h / 24 := by
  simp only [gregorian_to_jd, Zint]
  by_cases hc : m ≤ 2
  · simp only [if_pos hc]
    rw [emul1 (y - 1) (by omega), emul2 (m + 12) (by omega)]
    rw [show ((y - 1 : ℤ) : ℚ) / 100 = (((y - 1 : ℤ)) : ℚ) / ((100 : ℤ) : ℚ) by norm_num]
    rw [pyintQ_intCast_div _ _ (by omega) (by norm_num)]
    rw [show ((4 : ℚ)) = ((4 : ℤ) : ℚ) by norm_num]
    rw [pyintQ_intCast_div _ _ (by omega) (by norm_num)]
    push_cast
    rw [show (1524.5 : ℚ) = 3049 / 2 by norm_num]
    ring
  · simp only [if_neg hc]
    rw [emul1 y (by omega), emul2 m (by omega)]
    rw [show ((y : ℤ) : ℚ) / 100 = (((y : ℤ)) : ℚ) / ((100 : ℤ) : ℚ) by norm_num]
    rw [pyintQ_intCast_div _ _ (by omega) (by norm_num)]
    rw [show ((4 : ℚ)) = ((4 : ℤ) : ℚ) by norm_num]
    rw [pyintQ_intCast_div _ _ (by omega) (by norm_num)]
    push_cast
    rw [show (1524.5 : ℚ) = 3049 / 2 by norm_num]
    ring

set_option maxHeartbeats 4000000 in
set_option maxRecDepth 100000 in
theorem allMonthsOK :
    ∀ y ∈ Finset.Icc (1800 : ℤ) 2100, ∀ m ∈ Finset.Icc (1 : ℤ) 12, monthProp y m := by
  decide

lemma Zint_day (y m d : ℤ) : Zint y m d = Zint y m 1 + (d - 1) := by
  simp only [Zint]
  by_cases hc : m ≤ 2 <;> simp only [if_pos, if_neg, hc] <;> ring

lemma alphaI_mono {Z W : ℤ} (h : Z ≤ W) : alphaI Z ≤ alphaI W := by
  unfold alphaI; omega

/-- Interpolation: from the endpoint facts of `monthProp`, the inverse is
correct on every day of the month. -/
lemma month_interp (y m k : ℤ) (hP : monthProp y m) (hk0 : 0 ≤ k)
    (hkL : k ≤ monthLen y m - 1) :
    2299161 ≤ Zint y m 1 + k ∧ yearI (Zint y m 1 + k) = y ∧
      monthI (Zint y m 1 + k) = m ∧ dayI (Zint y m 1 + k) = 1 + k := by
  obtain ⟨h1, h2, h3, h4, h5, h6, h7⟩ := hP
  set Z1 := Zint y m 1 with hZ1
  set L := monthLen y m with hL
  set Z2 := Z1 + L - 1 with hZ2
  have hle : Z1 ≤ Z1 + k := by omega
  have hle2 : Z1 + k ≤ Z2 := by omega
  have hα : alphaI (Z1 + k) = alphaI Z1 :=
    le_antisymm (h5 ▸ alphaI_mono hle2) (alphaI_mono hle)
  have hα2 : alphaI Z2 = alphaI Z1 := h5.symm
  have hA : AI (Z1 + k) = AI Z1 + k := by unfold AI; rw [hα]; ring
  have hA2 : AI Z2 = AI Z1 + (L - 1) := by unfold AI; rw [hα2]; omega
  have hB : BI (Z1 + k) = BI Z1 + k := by unfold BI; omega
  have hB2 : BI Z2 = BI Z1 + (L - 1) := by unfold BI; omega
  have hC : CI (Z1 + k) = CI Z1 := by
    have e1 : CI (Z1 + k) = (20 * (BI Z1 + k) - 2442) / 7305 := by unfold CI; rw [hB]
    have e2 : CI Z2 = (20 * (BI Z1 + (L - 1)) - 2442) / 7305 := by unfold CI; rw [hB2]
    have e3 : CI Z1 = (20 * BI Z1 - 2442) / 7305 := by unfold CI; rfl
    omega
  have hD : DI (Z1 + k) = DI Z1 := by unfold DI; rw [hC]
  have hD2 : DI Z2 = DI Z1 := by
    unfold DI
    have e2 : CI Z2 = CI Z1 := h6.symm
    rw [e2]
  have hE : EI (Z1 + k) = EI Z1 := by
    have e1 : EI (Z1 + k) = 10000 * (BI Z1 + k - DI Z1) / 306001 := by
      unfold EI; rw [hB, hD]
    have e2 : EI Z2 = 10000 * (BI Z1 + (L - 1) - DI Z1) / 306001 := by
      unfold EI; rw [hB2, hD2]
    have e3 : EI Z1 = 10000 * (BI Z1 - DI Z1) / 306001 := by unfold EI; rfl
    omega
  have hday : dayI (Z1 + k) = 1 + k := by
    have e1 : dayI (Z1 + k) = BI Z1 + k - DI Z1 - 306001 * EI Z1 / 10000 := by
      unfold dayI; rw [hB, hD, hE]
    have e3 : dayI Z1 = BI Z1 - DI Z1 - 306001 * EI Z1 / 10000 := by unfold dayI; rfl
    omega
  have hmon : monthI (Z1 + k) = m := by
    have : monthI (Z1 + k) = monthI Z1 := by unfold monthI; rw [hE]
    omega
  have hyear : yearI (Z1 + k) = y := by
    have : yearI (Z1 + k) = yearI Z1 := by unfold yearI monthI; rw [hE, hC]
    omega
  exact ⟨by omega, hyear, hmon, hday⟩

/-- C1: Julian Day conversion round-trips. For every civil date/time with
year between 1800 and 2100 (valid day of month, hour fraction in `[0,24)`),
`jd_to_gregorian (gregorian_to_jd y m d h)` returns the same
`(year, month, day-with-fraction)` — here proven exactly, which implies
sub-minute precision; in particular `gregorian_to_jd 2000 1 1 12 = 2451545.0`
exactly and converting `2451545.0` back yields `(2000, 1, 1.5)`,
i.e. 2000-01-01 12:00. -/
theorem C1_julian_day_roundtrip :
    gregorian_to_jd 2000 1 1 12 = 2451545 ∧
    jd_to_gregorian 2451545 = (2000, 1, (3 : ℚ)/2) ∧
    ∀ (y m d : ℤ) (h : ℚ), 1800 ≤ y → y ≤ 2100 → 1 ≤ m → m ≤ 12 →
      1 ≤ d → d ≤ monthLen y m → 0 ≤ h → h < 24 →
      jd_to_gregorian (gregorian_to_jd y m d h) = (y, m, (d : ℚ) + h / 24) := by
  refine ⟨?_, ?_, ?_⟩
  · rw [gregorian_to_jd_eq 2000 1 1 12 (by norm_num) (by norm_num) (by norm_num)]
    rw [show Zint 2000 1 1 = 2451545 from by decide]
    norm_num
  · rw [show (2451545 : ℚ) = ((2451545 : ℤ) : ℚ) - 1/2 + 12 / 24 by norm_num]
    rw [jd_to_gregorian_eq 2451545 12 (by norm_num) (by norm_num) (by norm_num)]
    rw [show yearI 2451545 = 2000 from by decide, show monthI 2451545 = 1 from by decide,
      show dayI 2451545 = 1 from by decide]
    norm_num
  · intro y m d h hy1 hy2 hm1 hm2 hd1 hd2 hh0 hh24
    have hmp : monthProp y m :=
      allMonthsOK y (by rw [Finset.mem_Icc]; omega) m (by rw [Finset.mem_Icc]; omega)
    have hint := month_interp y m (d - 1) hmp (by omega) (by omega)
    rw [gregorian_to_jd_eq y m d h (by omega) hm1 hm2, Zint_day y m d]
    rw [show ((Zint y m 1 + (d - 1) : ℤ) : ℚ) = ((Zint y m 1 + (d - 1) : ℤ) : ℚ) from rfl]
    rw [jd_to_gregorian_eq (Zint y m 1 + (d - 1)) h hint.1 hh0 hh24]
    rw [hint.2.1, hint.2.2.1, hint.2.2.2]
    norm_num

/-- Witness for C1: the round-trip theorem applied at the concrete leap-day
input 2024-02-29 06:30. -/
theorem C1_julian_day_roundtrip_witness :
    jd_to_gregorian (gregorian_to_jd 2024 2 29 (13/2)) = (2024, 2, (29 : ℚ) + (13/2) / 24) :=
  C1_julian_day_roundtrip.2.2 2024 2 29 (13/2) (by norm_num) (by norm_num) (by norm_num)
    (by norm_num) (by norm_num) (by decide) (by norm_num) (by norm_num)

lemma fmod_eq_fract (a b : ℝ) (hb : b ≠ 0) : fmod a b = b * Int.fract (a / b) := by
  unfold fmod Int.fract
  field_simp

lemma fmod_nonneg (a b : ℝ) (hb : 0 < b) : 0 ≤ fmod a b := by
  rw [fmod_eq_fract a b hb.ne']
  exact mul_nonneg hb.le (Int.fract_nonneg _)

lemma fmod_lt (a b : ℝ) (hb : 0 < b) : fmod a b < b := by
  rw [fmod_eq_fract a b hb.ne']
  calc b * Int.fract (a / b) < b * 1 := by
        exact mul_lt_mul_of_pos_left (Int.fract_lt_one _) hb
    _ = b := mul_one b

lemma fmod_eq_self (a b : ℝ) (hb : 0 < b) (h0 : 0 ≤ a) (h1 : a < b) : fmod a b = a := by
  unfold fmod
  rw [Int.floor_eq_zero_iff.2 ⟨by positivity, by rw [div_lt_one hb]; exact h1⟩]
  simp

lemma fmod_add_int_mul (a b : ℝ) (k : ℤ) (hb : b ≠ 0) :
    fmod (a + b * k) b = fmod a b := by
  rw [fmod_eq_fract _ _ hb, fmod_eq_fract _ _ hb]
  congr 1
  rw [show (a + b * k) / b = a / b + k by field_simp; ring, Int.fract_add_int]

lemma fmod_int_mul (b : ℝ) (k : ℤ) (hb : b ≠ 0) : fmod (b * k) b = 0 := by
  have := fmod_add_int_mul 0 b k hb
  simp only [zero_add] at this
  rw [this]
  unfold fmod
  simp

lemma fmod_fmod_add (a c b : ℝ) (hb : b ≠ 0) :
    fmod (fmod a b + c) b = fmod (a + c) b := by
  have h2 := fmod_add_int_mul (a + c) b (-⌊a / b⌋) hb
  have e : a + c + b * ((-⌊a / b⌋ : ℤ) : ℝ) = fmod a b + c := by
    unfold fmod; push_cast; ring
  rw [e] at h2
  exact h2

lemma fmod_eq_sub_intCast (a b : ℝ) (hb : 0 < b) (k : ℤ) (h0 : 0 ≤ a - b * k)
    (h1 : a - b * k < b) : fmod a b = a - b * k := by
  have : fmod (a - b * k + b * k) b = fmod (a - b * k) b := fmod_add_int_mul _ b k hb.ne'
  simp only [sub_add_cancel] at this
  rw [this, fmod_eq_self _ _ hb h0 h1]

/-- Evaluate `fmod a 360` given the explicit quotient `k`. -/
lemma fmod_eval (a v : ℝ) (k : ℤ) (h : a - 360 * k = v) (h0 : 0 ≤ v) (h1 : v < 360) :
    fmod a 360 = v := by
  have := fmod_eq_sub_intCast a 360 (by norm_num) k (by rw [h]; exact h0) (by rw [h]; exact h1)
  rw [this, h]

/-! ## Auxiliary facts about rounding and the cusp lists -/

lemma roundHalfEven_err (w : ℝ) : |((roundHalfEven w : ℤ) : ℝ) - w| ≤ 1 / 2 := by
  have hf0 : 0 ≤ Int.fract w := Int.fract_nonneg w
  have hf1 : Int.fract w < 1 := Int.fract_lt_one w
  have hfe : Int.fract w = w - ⌊w⌋ := rfl
  unfold roundHalfEven
  split_ifs with h1 h2 h3 <;> rw [abs_le] <;> push_cast <;> constructor <;> linarith

lemma round6_err (x : ℝ) : |round6 x - x| ≤ 1 / 2000000 := by
  have := roundHalfEven_err (x * 1000000)
  unfold round6
  rw [show (roundHalfEven (x * 1000000) : ℝ) / 1000000 - x
      = ((roundHalfEven (x * 1000000) : ℝ) - x * 1000000) / 1000000 by ring,
    abs_div, abs_of_pos (by norm_num : (0 : ℝ) < 1000000)]
  linarith

lemma rahu_lt (T : ℝ) : rahu_longitude T < 360 := by
  unfold rahu_longitude normDeg
  exact fmod_lt _ _ (by norm_num)

lemma rahu_nonneg (T : ℝ) : 0 ≤ rahu_longitude T := by
  unfold rahu_longitude normDeg
  exact fmod_nonneg _ _ (by norm_num)

/-- The Rahu entry of `compute_all_positions`: its tropical longitude is the
rounded `rahu_longitude`. -/
lemma capos_rahu (jd lat lon : ℝ) (a : String) :
    (((compute_all_positions jd lat lon a).1.lookup "Rahu").map
        PlanetPosition.tropical_longitude).getD 0
      = round6 (rahu_longitude ((jd - J2000) / 36525)) := by
  simp [compute_all_positions, PLANETS, List.lookup]

/-- The Ketu entry of `compute_all_positions`: its tropical longitude is the
rounded `(Rahu + 180) mod 360`. -/
lemma capos_ketu (jd lat lon : ℝ) (a : String) :
    (((compute_all_positions jd lat lon a).1.lookup "Ketu").map
        PlanetPosition.tropical_longitude).getD 0
      = round6 (normDeg (rahu_longitude ((jd - J2000) / 36525) + 180)) := by
  simp [compute_all_positions, PLANETS, List.lookup]

/-- C2: for every Julian-century value `T` the Ketu longitude equals
`(Rahu + 180) mod 360` — exactly, hence within `1e-6` degrees — and in every
chart produced by `compute_all_positions` the stored (rounded) Rahu and Ketu
tropical longitudes satisfy `Ketu − Rahu ≡ 180 (mod 360)` within `1e-6`
degrees; Ketu is the `+180°` image of Rahu, never independently computed. -/
theorem C2_node_invariant :
    (∀ T : ℝ, fmod (ketu_longitude T - rahu_longitude T) 360 = 180) ∧
    (∀ jd lat lon : ℝ, ∀ a : String, ∃ k : ℤ,
      |(((compute_all_positions jd lat lon a).1.lookup "Ketu").map
          PlanetPosition.tropical_longitude).getD 0
        - (((compute_all_positions jd lat lon a).1.lookup "Rahu").map
          PlanetPosition.tropical_longitude).getD 0
        - 180 - 360 * (k : ℝ)| ≤ 1 / 1000000) := by
  constructor
  · intro T
    have h0 := rahu_nonneg T
    have h1 := rahu_lt T
    unfold ketu_longitude normDeg
    by_cases hc : rahu_longitude T < 180
    · rw [fmod_eval (rahu_longitude T + 180) (rahu_longitude T + 180) 0
        (by push_cast; ring) (by linarith) (by linarith)]
      rw [show rahu_longitude T + 180 - rahu_longitude T = (180 : ℝ) by ring]
      exact fmod_eval 180 180 0 (by push_cast; ring) (by norm_num) (by norm_num)
    · rw [fmod_eval (rahu_longitude T + 180) (rahu_longitude T - 180) 1
        (by push_cast; ring) (by linarith) (by linarith)]
      rw [show rahu_longitude T - 180 - rahu_longitude T = (-180 : ℝ) by ring]
      exact fmod_eval (-180) 180 (-1) (by push_cast; ring) (by norm_num) (by norm_num)
  · intro jd lat lon a
    set T := (jd - J2000) / 36525 with hT
    rw [capos_rahu jd lat lon a, capos_ketu jd lat lon a]
    have h0 := rahu_nonneg T
    have h1 := rahu_lt T
    have e1 := round6_err (rahu_longitude T)
    have e2 := round6_err (normDeg (rahu_longitude T + 180))
    unfold normDeg at e2
    by_cases hc : rahu_longitude T < 180
    · refine ⟨0, ?_⟩
      rw [fmod_eval (rahu_longitude T + 180) (rahu_longitude T + 180) 0
        (by push_cast; ring) (by linarith) (by linarith)] at e2
      unfold normDeg
      rw [fmod_eval (rahu_longitude T + 180) (rahu_longitude T + 180) 0
        (by push_cast; ring) (by linarith) (by linarith)]
      rw [abs_le] at e1 e2 ⊢
      push_cast
      constructor <;> linarith
    · refine ⟨-1, ?_⟩
      rw [fmod_eval (rahu_longitude T + 180) (rahu_longitude T - 180) 1
        (by push_cast; ring) (by linarith) (by linarith)] at e2
      unfold normDeg
      rw [fmod_eval (rahu_longitude T + 180) (rahu_longitude T - 180) 1
        (by push_cast; ring) (by linarith) (by linarith)]
      rw [abs_le] at e1 e2 ⊢
      push_cast at e2 ⊢
      constructor <;> linarith

/-- C10 (corrected to what the code does — here the claim itself asserts the
fall-through): `planet_geocentric` with any body name other than the five
handled planets returns exactly `(0, 0)`. -/
theorem C10_unhandled_body_zero (name : String)
    (h1 : name ≠ "Mercury") (h2 : name ≠ "Venus") (h3 : name ≠ "Mars")
    (h4 : name ≠ "Jupiter") (h5 : name ≠ "Saturn") (T sg sr : ℝ) :
    planet_geocentric name T sg sr = (0, 0) := by
  unfold planet_geocentric
  rw [if_neg h1, if_neg h2, if_neg h3, if_neg h4, if_neg h5]

/-- Witness for C10: the silently-ignored body `"Sun"` (and hence any other
unhandled name) yields the placeholder position `(0, 0)`. -/
theorem C10_unhandled_body_zero_witness :
    planet_geocentric "Sun" 0 0 0 = (0, 0) :=
  C10_unhandled_body_zero "Sun" (by decide) (by decide) (by decide) (by decide)
    (by decide) 0 0 0

/-- C8 counterexample: the sidereal-longitude difference between the lahiri
and raman systems is NOT literally equal to
`ayanamsa_raman(T) − ayanamsa_lahiri(T)`: at `T = 0`, `x = 23°` the
left-hand side is `358.60685` while the right-hand side is `−1.39315`
(they agree only modulo 360). -/
theorem C8_counterexample :
    tropical_to_sidereal 23 0 "lahiri" - tropical_to_sidereal 23 0 "raman"
      ≠ get_ayanamsa 0 "raman" - get_ayanamsa 0 "lahiri" := by
  have al : get_ayanamsa 0 "lahiri" = 23.85315 := by
    unfold get_ayanamsa AYANAMSA_TABLE
    rw [show pyLower "lahiri" = "lahiri" from by decide]
    simp only [List.lookup, show ("lahiri" == "lahiri") = true from by decide]
    norm_num
  have ar : get_ayanamsa 0 "raman" = 22.46000 := by
    unfold get_ayanamsa AYANAMSA_TABLE
    rw [show pyLower "raman" = "raman" from by decide]
    simp only [List.lookup, show ("raman" == "lahiri") = false from by decide,
      show ("raman" == "raman") = true from by decide]
    norm_num
  unfold tropical_to_sidereal normDeg
  rw [al, ar]
  rw [show (23 : ℝ) - 23.85315 = -0.85315 by norm_num,
    show (23 : ℝ) - 22.46000 = 0.54 by norm_num]
  rw [fmod_eval (-0.85315) 359.14685 (-1) (by push_cast; norm_num) (by norm_num)
    (by norm_num)]
  rw [fmod_eval 0.54 0.54 0 (by push_cast; norm_num) (by norm_num) (by norm_num)]
  norm_num

/-- C8 amended: at fixed `T`, for every body longitude `x`, the difference
between the lahiri-sidereal and raman-sidereal longitudes equals the fixed
offset `ayanamsa_raman(T) − ayanamsa_lahiri(T)` MODULO 360 (the same offset
for every `x`), though not as a plain real-number equality. -/
theorem C8_sidereal_shift (T x : ℝ) :
    fmod ((tropical_to_sidereal x T "lahiri" - tropical_to_sidereal x T "raman")
      - (get_ayanamsa T "raman" - get_ayanamsa T "lahiri")) 360 = 0 := by
  unfold tropical_to_sidereal normDeg fmod
  rw [show x - get_ayanamsa T "lahiri" - 360 * ⌊(x - get_ayanamsa T "lahiri") / 360⌋
      - (x - get_ayanamsa T "raman" - 360 * ⌊(x - get_ayanamsa T "raman") / 360⌋)
      - (get_ayanamsa T "raman" - get_ayanamsa T "lahiri")
      = 360 * ((⌊(x - get_ayanamsa T "raman") / 360⌋
        - ⌊(x - get_ayanamsa T "lahiri") / 360⌋ : ℤ) : ℝ) by push_cast; ring]
  have := fmod_int_mul 360
    (⌊(x - get_ayanamsa T "raman") / 360⌋ - ⌊(x - get_ayanamsa T "lahiri") / 360⌋)
    (by norm_num)
  unfold fmod at this
  exact this

/-- Witness for C8's amended theorem: instantiated at `T = 0`, `x = 23`. -/
theorem C8_sidereal_shift_witness :
    fmod ((tropical_to_sidereal 23 0 "lahiri" - tropical_to_sidereal 23 0 "raman")
      - (get_ayanamsa 0 "raman" - get_ayanamsa 0 "lahiri")) 360 = 0 :=
  C8_sidereal_shift 0 23

/-! ## C6: Whole Sign / Equal House cusp spacing -/

lemma pyint_of_nonneg (x : ℝ) (h : 0 ≤ x) : pyint x = ⌊x⌋ := if_pos h

lemma fmod_add_360 (x : ℝ) : fmod (x + 360) 360 = fmod x 360 := by
  rw [show x + 360 = x + 360 * ((1 : ℤ) : ℝ) by push_cast; ring]
  exact fmod_add_int_mul x 360 1 (by norm_num)

lemma range12_getD (f : ℕ → ℝ) (i : ℕ) (hi : i < 12) :
    ((List.range 12).map f).getD i 0 = f i := by
  rw [List.getD_eq_getElem?_getD, List.getElem?_map, List.getElem?_range hi]
  rfl

lemma cusps_spacing (base : ℝ) (i : ℕ) (hi : i < 12) :
    fmod (fmod (base + 30 * (((i + 1) % 12 : ℕ) : ℝ)) 360
      - fmod (base + 30 * (i : ℝ)) 360) 360 = 30 := by
  have h30 : ∃ t : ℤ, (30 : ℝ) * (((i + 1) % 12 : ℕ) : ℝ) - 30 * (i : ℝ)
      = 30 + 360 * (t : ℝ) := by
    by_cases hc : i = 11
    · exact ⟨-1, by subst hc; norm_num⟩
    · refine ⟨0, ?_⟩
      rw [Nat.mod_eq_of_lt (by omega)]
      push_cast; ring
  obtain ⟨t, ht⟩ := h30
  have e : fmod (base + 30 * (((i + 1) % 12 : ℕ) : ℝ)) 360 - fmod (base + 30 * (i : ℝ)) 360
      = 30 + 360 * ((t + ⌊(base + 30 * (i : ℝ)) / 360⌋
        - ⌊(base + 30 * (((i + 1) % 12 : ℕ) : ℝ)) / 360⌋ : ℤ) : ℝ) := by
    unfold fmod
    push_cast
    linarith [ht]
  rw [e, fmod_add_int_mul 30 360 _ (by norm_num)]
  exact fmod_eq_self 30 360 (by norm_num) (by norm_num) (by norm_num)

/-- C6: for every Ascendant input, the Whole Sign and Equal House cusp lists
are consecutive multiples of 30° apart (walking the twelve houses in order,
wrapping mod 360, each cusp is exactly 30° after the previous one); moreover,
for an Ascendant already normalized to `[0, 360)`, Equal House cusp 1 equals
the Ascendant exactly, and Whole Sign cusp 1 is the zodiac-sign boundary
`30·⌊asc/30⌋` at or before the Ascendant. -/
theorem C6_cusp_spacing (asc : ℝ) :
    (∀ i < 12, fmod ((Houses.whole_sign_cusps asc).getD ((i + 1) % 12) 0
      - (Houses.whole_sign_cusps asc).getD i 0) 360 = 30) ∧
    (∀ i < 12, fmod ((Houses.equal_house_cusps asc).getD ((i + 1) % 12) 0
      - (Houses.equal_house_cusps asc).getD i 0) 360 = 30) ∧
    (0 ≤ asc → asc < 360 →
      (Houses.equal_house_cusps asc).getD 0 0 = asc ∧
      (Houses.whole_sign_cusps asc).getD 0 0 = 30 * ((⌊asc / 30⌋ : ℤ) : ℝ) ∧
      (Houses.whole_sign_cusps asc).getD 0 0 ≤ asc ∧
      asc < (Houses.whole_sign_cusps asc).getD 0 0 + 30) := by
  refine ⟨?_, ?_, ?_⟩
  · intro i hi
    unfold Houses.whole_sign_cusps
    rw [range12_getD _ _ (Nat.mod_lt _ (by norm_num)), range12_getD _ _ hi]
    exact cusps_spacing _ i hi
  · intro i hi
    unfold Houses.equal_house_cusps
    rw [range12_getD _ _ (Nat.mod_lt _ (by norm_num)), range12_getD _ _ hi]
    exact cusps_spacing _ i hi
  · intro h0 h1
    have hf0 : (0 : ℤ) ≤ ⌊asc / 30⌋ := Int.floor_nonneg.2 (by positivity)
    have hf1 : ⌊asc / 30⌋ < 12 := Int.floor_lt.2 (by push_cast; linarith)
    have hfle : ((⌊asc / 30⌋ : ℤ) : ℝ) ≤ asc / 30 := Int.floor_le _
    have hflt : asc / 30 < ((⌊asc / 30⌋ : ℤ) : ℝ) + 1 := Int.lt_floor_add_one _
    have hcast : ((⌊asc / 30⌋ : ℤ) : ℝ) ≤ 11 := by exact_mod_cast Int.lt_add_one_iff.1 hf1
    have hcast0 : (0 : ℝ) ≤ ((⌊asc / 30⌋ : ℤ) : ℝ) := by exact_mod_cast hf0
    have hws : (Houses.whole_sign_cusps asc).getD 0 0 = 30 * ((⌊asc / 30⌋ : ℤ) : ℝ) := by
      unfold Houses.whole_sign_cusps
      rw [range12_getD _ _ (by norm_num)]
      rw [pyint_of_nonneg _ (by positivity)]
      rw [show ((⌊asc / 30⌋ : ℤ) : ℝ) * 30 + 30 * ((0 : ℕ) : ℝ)
          = 30 * ((⌊asc / 30⌋ : ℤ) : ℝ) by push_cast; ring]
      exact fmod_eq_self _ 360 (by norm_num) (by linarith) (by linarith)
    refine ⟨?_, hws, ?_, ?_⟩
    · unfold Houses.equal_house_cusps
      rw [range12_getD _ _ (by norm_num)]
      rw [show asc + 30 * ((0 : ℕ) : ℝ) = asc by push_cast; ring]
      exact fmod_eq_self asc 360 (by norm_num) h0 h1
    · rw [hws]; linarith
    · rw [hws]; linarith

/-- Witness for C6: instantiated at Ascendant `100°` (spacing between cusps
1 and 2 of the Whole Sign list, and Equal House cusp 1). -/
theorem C6_cusp_spacing_witness :
    fmod ((Houses.whole_sign_cusps 100).getD ((0 + 1) % 12) 0
      - (Houses.whole_sign_cusps 100).getD 0 0) 360 = 30 ∧
    (Houses.equal_house_cusps 100).getD 0 0 = 100 :=
  ⟨(C6_cusp_spacing 100).1 0 (by norm_num),
    ((C6_cusp_spacing 100).2.2 (by norm_num) (by norm_num)).1⟩

/-! ## C3: retrograde detection -/

lemma is_retrograde_planet (p : String) (jd sgl sr : ℝ)
    (h1 : ¬(p = "Rahu" ∨ p = "Ketu")) (h2 : ¬(p = "Sun" ∨ p = "Moon")) :
    (is_retrograde p jd sgl sr = true ↔ 180 < forward_half_day_motion p jd) := by
  simp only [is_retrograde, forward_half_day_motion]
  rw [if_neg h1, if_neg h2]
  rw [show ((planet_geocentric p (((jd + 0.5) - J2000) / 36525)
        (sun_longitude (((jd + 0.5) - J2000) / 36525)
          (nutation_and_obliquity (((jd + 0.5) - J2000) / 36525)).1).1
        (sun_longitude (((jd + 0.5) - J2000) / 36525)
          (nutation_and_obliquity (((jd + 0.5) - J2000) / 36525)).1).2).1
      - (planet_geocentric p ((jd - J2000) / 36525)
        (sun_longitude ((jd - J2000) / 36525)
          (nutation_and_obliquity ((jd - J2000) / 36525)).1).1
        (sun_longitude ((jd - J2000) / 36525)
          (nutation_and_obliquity ((jd - J2000) / 36525)).1).2).1 + 360 : ℝ)
      = ((planet_geocentric p (((jd + 0.5) - J2000) / 36525)
        (sun_longitude (((jd + 0.5) - J2000) / 36525)
          (nutation_and_obliquity (((jd + 0.5) - J2000) / 36525)).1).1
        (sun_longitude (((jd + 0.5) - J2000) / 36525)
          (nutation_and_obliquity (((jd + 0.5) - J2000) / 36525)).1).2).1
      - (planet_geocentric p ((jd - J2000) / 36525)
        (sun_longitude ((jd - J2000) / 36525)
          (nutation_and_obliquity ((jd - J2000) / 36525)).1).1
        (sun_longitude ((jd - J2000) / 36525)
          (nutation_and_obliquity ((jd - J2000) / 36525)).1).2).1)
      + 360 * ((1 : ℤ) : ℝ) by push_cast; ring]
  rw [fmod_add_int_mul _ 360 1 (by norm_num)]
  split_ifs with h
  · simp [h]
  · simp [h]

/-- C3: the retrograde detector returns `false` for Sun and Moon and `true`
for Rahu and Ketu on every input; for each of the five planets it returns
`true` exactly when the forward half-day angular difference, normalized to
`[0, 360)` (with the Sun recomputed at the later epoch), strictly exceeds
180°, so a difference of exactly 180° is classified non-retrograde. -/
theorem C3_retrograde_policy (jd sgl sr : ℝ) :
    is_retrograde "Sun" jd sgl sr = false ∧
    is_retrograde "Moon" jd sgl sr = false ∧
    is_retrograde "Rahu" jd sgl sr = true ∧
    is_retrograde "Ketu" jd sgl sr = true ∧
    (is_retrograde "Mercury" jd sgl sr = true
      ↔ 180 < forward_half_day_motion "Mercury" jd) ∧
    (is_retrograde "Venus" jd sgl sr = true
      ↔ 180 < forward_half_day_motion "Venus" jd) ∧
    (is_retrograde "Mars" jd sgl sr = true
      ↔ 180 < forward_half_day_motion "Mars" jd) ∧
    (is_retrograde "Jupiter" jd sgl sr = true
      ↔ 180 < forward_half_day_motion "Jupiter" jd) ∧
    (is_retrograde "Saturn" jd sgl sr = true
      ↔ 180 < forward_half_day_motion "Saturn" jd) := by
  refine ⟨?_, ?_, ?_, ?_, ?_, ?_, ?_, ?_, ?_⟩
  · unfold is_retrograde
    rw [if_neg (by decide), if_pos (by decide : ("Sun" = "Sun" ∨ "Sun" = "Moon"))]
  · unfold is_retrograde
    rw [if_neg (by decide), if_pos (by decide : ("Moon" = "Sun" ∨ "Moon" = "Moon"))]
  · unfold is_retrograde
    rw [if_pos (by decide : ("Rahu" = "Rahu" ∨ "Rahu" = "Ketu"))]
  · unfold is_retrograde
    rw [if_pos (by decide : ("Ketu" = "Rahu" ∨ "Ketu" = "Ketu"))]
  · exact is_retrograde_planet "Mercury" jd sgl sr (by decide) (by decide)
  · exact is_retrograde_planet "Venus" jd sgl sr (by decide) (by decide)
  · exact is_retrograde_planet "Mars" jd sgl sr (by decide) (by decide)
  · exact is_retrograde_planet "Jupiter" jd sgl sr (by decide) (by decide)
  · exact is_retrograde_planet "Saturn" jd sgl sr (by decide) (by decide)

/-! ## C4: Ascendant quadrant correction -/

lemma atan2_zero_one : atan2 0 1 = 0 := by
  unfold atan2
  rw [show (⟨1, 0⟩ : ℂ) = 1 from Complex.ext (by simp) (by simp)]
  exact Complex.arg_one

lemma atan2_one_zero : atan2 1 0 = Real.pi / 2 := by
  unfold atan2
  rw [show (⟨0, 1⟩ : ℂ) = Complex.I from Complex.ext (by simp) (by simp)]
  exact Complex.arg_I

lemma deg90 : (90 : ℝ) * DEG_TO_RAD = Real.pi / 2 := by
  unfold DEG_TO_RAD; ring

lemma deg0 : (0 : ℝ) * DEG_TO_RAD = 0 := by ring

lemma houses_asc_90 : Houses.compute_ascendant 90 0 0 = 180 := by
  simp only [Houses.compute_ascendant]
  rw [deg90, deg0, Real.cos_pi_div_two, Real.sin_pi_div_two, Real.sin_zero,
    Real.tan_zero, Real.cos_zero]
  rw [show (-(0 : ℝ)) = 0 from neg_zero, show (0 : ℝ) * 0 + 1 * 1 = 1 by norm_num,
    atan2_zero_one, zero_mul, zero_add]
  exact fmod_eval 180 180 0 (by push_cast; ring) (by norm_num) (by norm_num)

/-- C4 counterexample: at `lst = 90°, lat = 0, obl = 0` the `houses.py`
Ascendant (unconditional `+180°`) is `180°`, while the conditional
sign-of-`x` policy (the nested module's implementation) yields `0°` — the
`houses.py` implementation does NOT resolve the `atan2` ambiguity by the
conditional `x < 0` check. -/
theorem C4_counterexample :
    Houses.compute_ascendant 90 0 0 = 180 ∧
    HousesNested.compute_ascendant 90 0 0 = 0 ∧ (180 : ℝ) ≠ 0 := by
  refine ⟨houses_asc_90, ?_, by norm_num⟩
  · simp only [HousesNested.compute_ascendant]
    rw [deg90, deg0, Real.cos_pi_div_two, Real.sin_pi_div_two, Real.sin_zero,
      Real.tan_zero, Real.cos_zero]
    norm_num [atan2_zero_one]
    exact fmod_eval 0 0 0 (by push_cast; ring) (by norm_num) (by norm_num)

/-- C4 amended: the conditional sign-of-`x` quadrant correction is what
`ephemeris.py` and the nested duplicate module implement, while
`houses.py`'s `compute_ascendant` applies an unconditional `+180°`; whenever
the `x`-component is positive (and at least `1e-10` in magnitude) the two
module variants therefore differ by exactly 180° (mod 360). -/
theorem C4_quadrant_policy (lst lat obl : ℝ)
    (hx10 : ¬(|Real.sin (obl * DEG_TO_RAD) * Real.tan (lat * DEG_TO_RAD)
      + Real.cos (obl * DEG_TO_RAD) * Real.sin (lst * DEG_TO_RAD)| < 1e-10))
    (hxpos : 0 < Real.sin (obl * DEG_TO_RAD) * Real.tan (lat * DEG_TO_RAD)
      + Real.cos (obl * DEG_TO_RAD) * Real.sin (lst * DEG_TO_RAD)) :
    Houses.compute_ascendant lst lat obl
      = fmod (HousesNested.compute_ascendant lst lat obl + 180) 360 := by
  simp only [Houses.compute_ascendant, HousesNested.compute_ascendant]
  rw [if_neg hx10, if_neg (not_lt.2 hxpos.le)]
  rw [fmod_fmod_add (atan2 (-Real.cos (lst * DEG_TO_RAD))
    (Real.sin (obl * DEG_TO_RAD) * Real.tan (lat * DEG_TO_RAD)
      + Real.cos (obl * DEG_TO_RAD) * Real.sin (lst * DEG_TO_RAD)) * RAD_TO_DEG)
    180 360 (by norm_num)]

/-- Witness for C4's amended theorem: at `lst = 90°, lat = 0, obl = 0`
(where `x = 1 > 0`). -/
theorem C4_quadrant_policy_witness :
    Houses.compute_ascendant 90 0 0
      = fmod (HousesNested.compute_ascendant 90 0 0 + 180) 360 :=
  C4_quadrant_policy 90 0 0
    (by rw [deg90, deg0, Real.sin_zero, Real.tan_zero, Real.cos_zero,
          Real.sin_pi_div_two]
        norm_num)
    (by rw [deg90, deg0, Real.sin_zero, Real.tan_zero, Real.cos_zero,
          Real.sin_pi_div_two]
        norm_num)

/-! ## C9: Koch cusp structure -/

lemma houses_asc_nonneg (lst lat obl : ℝ) : 0 ≤ Houses.compute_ascendant lst lat obl := by
  simp only [Houses.compute_ascendant]
  exact fmod_nonneg _ _ (by norm_num)

lemma houses_asc_lt (lst lat obl : ℝ) : Houses.compute_ascendant lst lat obl < 360 := by
  simp only [Houses.compute_ascendant]
  exact fmod_lt _ _ (by norm_num)

lemma houses_mc_nonneg (lst obl : ℝ) : 0 ≤ Houses.compute_midheaven lst obl := by
  simp only [Houses.compute_midheaven]
  exact fmod_nonneg _ _ (by norm_num)

lemma houses_mc_lt (lst obl : ℝ) : Houses.compute_midheaven lst obl < 360 := by
  simp only [Houses.compute_midheaven]
  exact fmod_lt _ _ (by norm_num)

lemma range11_getD (f : ℕ → ℝ) (i : ℕ) (hi : i < 11) :
    ((List.range 11).map f).getD i 0 = f i := by
  rw [List.getD_eq_getElem?_getD, List.getElem?_map, List.getElem?_range hi]
  rfl

/-- Every entry of the Koch list is `(mc + arc·i/3) mod 360`. -/
lemma koch_getD (lst lat obl : ℝ) (i : ℕ) (hi : i < 12) :
    (Houses.koch_cusps lst lat obl).getD i 0
      = fmod (Houses.compute_midheaven lst obl
        + fmod (Houses.compute_ascendant lst lat obl - Houses.compute_midheaven lst obl) 360
          * (i : ℝ) / 3) 360 := by
  simp only [Houses.koch_cusps]
  cases i with
  | zero =>
    rw [show ((List.getD (Houses.compute_midheaven lst obl ::
        (List.range 11).map (fun i : ℕ => fmod (Houses.compute_midheaven lst obl
          + fmod (Houses.compute_ascendant lst lat obl - Houses.compute_midheaven lst obl) 360
            * ((i : ℝ) + 1) / 3) 360)) 0 0)) = Houses.compute_midheaven lst obl from rfl]
    rw [show Houses.compute_midheaven lst obl
        + fmod (Houses.compute_ascendant lst lat obl - Houses.compute_midheaven lst obl) 360
          * ((0 : ℕ) : ℝ) / 3 = Houses.compute_midheaven lst obl by push_cast; ring]
    exact (fmod_eq_self _ 360 (by norm_num) (houses_mc_nonneg lst obl)
      (houses_mc_lt lst obl)).symm
  | succ n =>
    rw [List.getD_cons_succ, range11_getD _ n (by omega)]
    rw [show (((n : ℕ) : ℝ) + 1) = (((n + 1 : ℕ)) : ℝ) by push_cast; ring]

/-- C9 counterexample: at `lst = 90°, lat = 0, obl = 0` the Koch house-1 cusp
is `90°` (the Midheaven) while the Ascendant is `180°` — the Koch house-1
cusp is NOT the Ascendant. -/
theorem C9_counterexample :
    (Houses.koch_cusps 90 0 0).getD 0 0 = 90 ∧
    Houses.compute_ascendant 90 0 0 = 180 ∧ (90 : ℝ) ≠ 180 := by
  refine ⟨?_, houses_asc_90, by norm_num⟩
  have hmc : Houses.compute_midheaven 90 0 = 90 := by
    simp only [Houses.compute_midheaven]
    rw [deg90, deg0, Real.cos_pi_div_two, Real.sin_pi_div_two]
    rw [show Real.cos (0 : ℝ) = 1 from Real.cos_zero]
    norm_num [atan2_one_zero]
    rw [show Real.pi / 2 * RAD_TO_DEG = 90 by
      unfold RAD_TO_DEG; field_simp; ring]
    exact fmod_eval 90 90 0 (by push_cast; ring) (by norm_num) (by norm_num)
  rw [koch_getD 90 0 0 0 (by norm_num), hmc]
  rw [show (90 : ℝ) + fmod (Houses.compute_ascendant 90 0 0 - 90) 360 * ((0 : ℕ) : ℝ) / 3
      = 90 by push_cast; ring]
  exact fmod_eval 90 90 0 (by push_cast; ring) (by norm_num) (by norm_num)

/-- C9 amended: in the Koch system as implemented, the house-1 cusp is the
MIDHEAVEN and the house-4 cusp is the Ascendant (not Ascendant/IC as the
claim states); the twelve cusps are spaced uniformly by `arc/3` (mod 360)
where `arc = (Asc − MC) mod 360`, i.e. the Asc–MC arc is interpolated into
thirds starting from the MC and wrapped around the whole circle. -/
theorem C9_koch_structure (lst lat obl : ℝ) :
    (Houses.koch_cusps lst lat obl).getD 0 0 = Houses.compute_midheaven lst obl ∧
    (Houses.koch_cusps lst lat obl).getD 3 0 = Houses.compute_ascendant lst lat obl ∧
    (∀ i < 11, fmod ((Houses.koch_cusps lst lat obl).getD (i + 1) 0
      - (Houses.koch_cusps lst lat obl).getD i 0) 360
      = fmod (fmod (Houses.compute_ascendant lst lat obl
          - Houses.compute_midheaven lst obl) 360 / 3) 360) := by
  set asc := Houses.compute_ascendant lst lat obl with hasc
  set mc := Houses.compute_midheaven lst obl with hmc
  refine ⟨?_, ?_, ?_⟩
  · rw [koch_getD lst lat obl 0 (by norm_num)]
    rw [show mc + fmod (asc - mc) 360 * ((0 : ℕ) : ℝ) / 3 = mc by push_cast; ring]
    exact fmod_eval mc mc 0 (by push_cast; ring) (houses_mc_nonneg lst obl)
      (houses_mc_lt lst obl)
  · rw [koch_getD lst lat obl 3 (by norm_num)]
    rw [show mc + fmod (asc - mc) 360 * ((3 : ℕ) : ℝ) / 3 = mc + fmod (asc - mc) 360 by
      push_cast; ring]
    have e2 : mc + fmod (asc - mc) 360 = asc + 360 * ((-⌊(asc - mc) / 360⌋ : ℤ) : ℝ) := by
      unfold fmod; push_cast; ring
    rw [e2, fmod_add_int_mul asc 360 _ (by norm_num)]
    exact fmod_eval asc asc 0 (by push_cast; ring) (houses_asc_nonneg lst lat obl)
      (houses_asc_lt lst lat obl)
  · intro i hi
    rw [koch_getD lst lat obl (i + 1) (by omega), koch_getD lst lat obl i (by omega)]
    have e : fmod (mc + fmod (asc - mc) 360 * (((i + 1 : ℕ)) : ℝ) / 3) 360
        - fmod (mc + fmod (asc - mc) 360 * ((i : ℕ) : ℝ) / 3) 360
        = fmod (asc - mc) 360 / 3
          + 360 * ((⌊(mc + fmod (asc - mc) 360 * ((i : ℕ) : ℝ) / 3) / 360⌋
            - ⌊(mc + fmod (asc - mc) 360 * (((i + 1 : ℕ)) : ℝ) / 3) / 360⌋ : ℤ) : ℝ) := by
      rw [show fmod (mc + fmod (asc - mc) 360 * (((i + 1 : ℕ)) : ℝ) / 3) 360
          = (mc + fmod (asc - mc) 360 * (((i + 1 : ℕ)) : ℝ) / 3)
            - 360 * ((⌊(mc + fmod (asc - mc) 360 * (((i + 1 : ℕ)) : ℝ) / 3) / 360⌋ : ℤ) : ℝ)
          from rfl,
        show fmod (mc + fmod (asc - mc) 360 * ((i : ℕ) : ℝ) / 3) 360
          = (mc + fmod (asc - mc) 360 * ((i : ℕ) : ℝ) / 3)
            - 360 * ((⌊(mc + fmod (asc - mc) 360 * ((i : ℕ) : ℝ) / 3) / 360⌋ : ℤ) : ℝ)
          from rfl]
      push_cast
      ring
    rw [e, fmod_add_int_mul _ 360 _ (by norm_num)]

/-- Witness for C9's amended theorem: instantiated at `lst = 90°, lat = 0,
obl = 0` and spacing index `i = 0`. -/
theorem C9_koch_structure_witness :
    (Houses.koch_cusps 90 0 0).getD 0 0 = Houses.compute_midheaven 90 0 ∧
    fmod ((Houses.koch_cusps 90 0 0).getD (0 + 1) 0
      - (Houses.koch_cusps 90 0 0).getD 0 0) 360
      = fmod (fmod (Houses.compute_ascendant 90 0 0
          - Houses.compute_midheaven 90 0) 360 / 3) 360 :=
  ⟨(C9_koch_structure 90 0 0).1, (C9_koch_structure 90 0 0).2.2 0 (by norm_num)⟩

/-! ## C5: Placidus totality and Equal-House fallback -/

/-- The Placidus list is either the Equal-House fallback or the explicit
12-entry list anchored at Asc/IC/Dsc/MC, depending on the error monad. -/
lemma placidus_cusps_split (lst lat obl : ℝ) :
    Houses.placidus_cusps lst lat obl
        = Houses.equal_house_cusps (Houses.compute_ascendant lst lat obl) ∨
      ∃ h2 h3 h11 h12 : ℝ, Houses.placidus_cusps lst lat obl
        = [Houses.compute_ascendant lst lat obl, h2, h3,
           fmod (Houses.compute_midheaven lst obl + 180) 360,
           fmod (fmod (Houses.compute_midheaven lst obl + 180) 360 + 30) 360,
           fmod (fmod (Houses.compute_midheaven lst obl + 180) 360 + 60) 360,
           fmod (Houses.compute_ascendant lst lat obl + 180) 360, h11, h12,
           Houses.compute_midheaven lst obl,
           fmod (Houses.compute_midheaven lst obl + 30) 360,
           fmod (Houses.compute_midheaven lst obl + 60) 360] := by
  simp only [Houses.placidus_cusps]
  cases hres : (do
    let h12 ← Houses.placidus_cusp lst (obl * DEG_TO_RAD) (lat * DEG_TO_RAD) (1/3) true
    let h11 ← Houses.placidus_cusp lst (obl * DEG_TO_RAD) (lat * DEG_TO_RAD) (2/3) true
    let h2 ← Houses.placidus_cusp lst (obl * DEG_TO_RAD) (lat * DEG_TO_RAD) (1/3) false
    let h3 ← Houses.placidus_cusp lst (obl * DEG_TO_RAD) (lat * DEG_TO_RAD) (2/3) false
    pure (h12, h11, h2, h3) : Except Unit (ℝ × ℝ × ℝ × ℝ)) with
  | error e => left; rfl
  | ok v =>
    right
    exact ⟨v.2.2.1, v.2.2.2, v.2.1, v.1, rfl⟩

/-- The Placidus list always has 12 entries, whichever branch is taken. -/
lemma placidus_cusps_length (lst lat obl : ℝ) :
    (Houses.placidus_cusps lst lat obl).length = 12 := by
  rcases placidus_cusps_split lst lat obl with h | ⟨h2, h3, h11, h12, h⟩
  · rw [h]
    simp [Houses.equal_house_cusps]
  · rw [h]
    rfl

/-- Every one of the four house systems hands `get_house_cusps` a 12-entry
cusp list. -/
lemma get_house_cusps_length (system : String) (lst lat obl : ℝ) :
    ((Houses.get_house_cusps system lst lat obl).1).length = 12 := by
  simp only [Houses.get_house_cusps]
  split_ifs with h1 h2 h3
  · exact placidus_cusps_length lst lat obl
  · simp [Houses.koch_cusps]
  · simp [Houses.equal_house_cusps]
  · simp [Houses.whole_sign_cusps]

/-- C5: Placidus cusp solving never propagates a failure: the result is
either the Equal House cusps for the same Ascendant (the degenerate-geometry
fallback of the `try/except`) or the twelve-entry Placidus list anchored at
Asc/IC/Dsc/MC; `get_house_cusps "placidus"` is total and returns that list
together with the Ascendant and Midheaven, and the list always has 12
entries. -/
theorem C5_placidus_total (lst lat obl : ℝ) :
    (Houses.placidus_cusps lst lat obl
        = Houses.equal_house_cusps (Houses.compute_ascendant lst lat obl) ∨
      ∃ h2 h3 h11 h12 : ℝ, Houses.placidus_cusps lst lat obl
        = [Houses.compute_ascendant lst lat obl, h2, h3,
           fmod (Houses.compute_midheaven lst obl + 180) 360,
           fmod (fmod (Houses.compute_midheaven lst obl + 180) 360 + 30) 360,
           fmod (fmod (Houses.compute_midheaven lst obl + 180) 360 + 60) 360,
           fmod (Houses.compute_ascendant lst lat obl + 180) 360, h11, h12,
           Houses.compute_midheaven lst obl,
           fmod (Houses.compute_midheaven lst obl + 30) 360,
           fmod (Houses.compute_midheaven lst obl + 60) 360]) ∧
    Houses.get_house_cusps "placidus" lst lat obl
      = (Houses.placidus_cusps lst lat obl, Houses.compute_ascendant lst lat obl,
         Houses.compute_midheaven lst obl) ∧
    (Houses.placidus_cusps lst lat obl).length = 12 := by
  refine ⟨placidus_cusps_split lst lat obl, ?_, placidus_cusps_length lst lat obl⟩
  simp [Houses.get_house_cusps]

/-! ## C7: planet house number -/

/-- The cusp lists produced by `whole_sign_cusps` / `equal_house_cusps` pass
the 30°-spacing detection of `planet_house_number` exactly. -/
lemma mapped_cusps_whole_sign_detect (base : ℝ) (k : ℕ) (hk : k < 11) :
    |fmod (((List.range 12).map (fun i : ℕ => fmod (base + 30 * (i : ℝ)) 360)).getD (k + 1) 0
      - ((List.range 12).map (fun i : ℕ => fmod (base + 30 * (i : ℝ)) 360)).getD 0 0
      - ((k : ℤ) + 1 : ℤ) * 30) 360| < 0.1 := by
  rw [range12_getD _ (k + 1) (by omega), range12_getD _ 0 (by norm_num)]
  have e : fmod (base + 30 * ((k + 1 : ℕ) : ℝ)) 360 - fmod (base + 30 * ((0 : ℕ) : ℝ)) 360
      - (((k : ℤ) + 1 : ℤ) : ℝ) * 30
      = 360 * ((⌊(base + 30 * ((0 : ℕ) : ℝ)) / 360⌋
        - ⌊(base + 30 * ((k + 1 : ℕ) : ℝ)) / 360⌋ : ℤ) : ℝ) := by
    unfold fmod
    push_cast
    ring
  rw [e, fmod_int_mul 360 _ (by norm_num)]
  norm_num

/-- On a 30°-spaced cusp list starting at `base ∈ [0, 360)`, a longitude
lying exactly on cusp `j` is assigned to house `j + 1` by
`planet_house_number`. -/
lemma phn_mapped_cusps (base : ℝ) (h0 : 0 ≤ base) (h1 : base < 360) (j : ℕ) (hj : j < 12) :
    Houses.planet_house_number
      (((List.range 12).map (fun i : ℕ => fmod (base + 30 * (i : ℝ)) 360)).getD j 0)
      ((List.range 12).map (fun i : ℕ => fmod (base + 30 * (i : ℝ)) 360)) = (j : ℤ) + 1 := by
  have hf0 : fmod (base + 30 * ((0 : ℕ) : ℝ)) 360 = base := by
    rw [show base + 30 * ((0 : ℕ) : ℝ) = base by push_cast; ring]
    exact fmod_eval base base 0 (by push_cast; ring) h0 h1
  simp only [Houses.planet_house_number]
  rw [if_neg (by simp : ¬((List.range 12).map
    (fun i : ℕ => fmod (base + 30 * (i : ℝ)) 360) = []))]
  rw [if_pos (fun k hk => mapped_cusps_whole_sign_detect base k hk)]
  rw [range12_getD _ j hj, range12_getD _ 0 (by norm_num), hf0]
  have hjnn : 0 ≤ fmod (base + 30 * (j : ℝ)) 360 := fmod_nonneg _ _ (by norm_num)
  rw [pyint_of_nonneg _ (by positivity), pyint_of_nonneg _ (by positivity)]
  have ediv : fmod (base + 30 * (j : ℝ)) 360 / 30
      = base / 30 + (((j : ℤ) - 12 * ⌊(base + 30 * (j : ℝ)) / 360⌋ : ℤ) : ℝ) := by
    unfold fmod
    push_cast
    ring
  rw [ediv, Int.floor_add_int]
  omega

/-- Bounds of the descending interval scan. -/
lemma scanHouse_bounds (lon : ℝ) (cusps : List ℝ) (idxs : List ℕ)
    (h : ∀ i ∈ idxs, i < 12) :
    1 ≤ Houses.scanHouse lon cusps idxs ∧ Houses.scanHouse lon cusps idxs ≤ 12 := by
  induction idxs with
  | nil => simp [Houses.scanHouse]
  | cons i rest ih =>
    have hi : i < 12 := h i (List.mem_cons_self i rest)
    have hrest := ih (fun k hk => h k (List.mem_cons_of_mem _ hk))
    simp only [Houses.scanHouse]
    split_ifs <;> first
      | (constructor <;> omega)
      | exact hrest

lemma deg45 : (45 : ℝ) * DEG_TO_RAD = Real.pi / 4 := by
  unfold DEG_TO_RAD; ring

lemma atan2_zero_zero : atan2 0 0 = 0 := by
  unfold atan2
  rw [show (⟨0, 0⟩ : ℂ) = 0 from Complex.ext (by simp) (by simp)]
  exact Complex.arg_zero

lemma atan2_neg_one_one : atan2 (-1) 1 = -(Real.pi / 4) := by
  unfold atan2 Complex.arg
  rw [if_pos (by norm_num : (0 : ℝ) ≤ (⟨1, -1⟩ : ℂ).re)]
  have h2 : Real.sqrt 2 * Real.sqrt 2 = 2 := Real.mul_self_sqrt (by norm_num)
  have hs2 : (0 : ℝ) < Real.sqrt 2 := Real.sqrt_pos.2 (by norm_num)
  have habs : Complex.abs ⟨1, -1⟩ = Real.sqrt 2 := by
    rw [Complex.abs_apply, Complex.normSq_mk]
    norm_num
  rw [show (⟨1, -1⟩ : ℂ).im = -1 from rfl, habs]
  have hval : (-1 : ℝ) / Real.sqrt 2 = -(Real.sqrt 2 / 2) := by
    rw [div_eq_iff hs2.ne']
    nlinarith [h2]
  rw [hval, Real.arcsin_neg]
  rw [show Real.sqrt 2 / 2 = Real.sin (Real.pi / 4) from Real.sin_pi_div_four.symm]
  rw [Real.arcsin_sin (by linarith [Real.pi_pos]) (by linarith [Real.pi_pos])]

/-- At `lst = 0, lat = 45°, obl = 90°` the houses.py Ascendant is 135°. -/
lemma houses_asc_0_45_90 : Houses.compute_ascendant 0 45 90 = 135 := by
  simp only [Houses.compute_ascendant]
  rw [deg90, deg45, deg0, Real.cos_zero, Real.sin_zero, Real.sin_pi_div_two,
    Real.cos_pi_div_two, Real.tan_pi_div_four]
  rw [show (1 : ℝ) * 1 + 0 * 0 = 1 by norm_num, show (-(1 : ℝ)) = (-1 : ℝ) by norm_num]
  rw [atan2_neg_one_one]
  rw [show (-(Real.pi / 4)) * RAD_TO_DEG = -45 by
    unfold RAD_TO_DEG; field_simp; ring]
  exact fmod_eval (-45 + 180) 135 0 (by push_cast; norm_num) (by norm_num) (by norm_num)

/-- At `lst = 0, obl = 90°` the Midheaven is 0°. -/
lemma houses_mc_0_90 : Houses.compute_midheaven 0 90 = 0 := by
  simp only [Houses.compute_midheaven]
  rw [deg0, deg90, Real.sin_zero, Real.cos_zero, Real.cos_pi_div_two]
  rw [show (1 : ℝ) * 0 = 0 by norm_num]
  rw [atan2_zero_zero, zero_mul]
  exact fmod_eval 0 0 0 (by push_cast; norm_num) (by norm_num) (by norm_num)

/-- The Koch cusp list at `lst = 0, lat = 45°, obl = 90°`: entry `i` is
`45·i mod 360` (arc = 135°, spacing 45°, wrapping past entry 8, so the list
is NOT monotonic and its intervals overlap). -/
lemma koch_demo_getD (i : ℕ) (hi : i < 12) :
    (Houses.koch_cusps 0 45 90).getD i 0 = fmod (45 * (i : ℝ)) 360 := by
  rw [koch_getD 0 45 90 i hi, houses_mc_0_90, houses_asc_0_45_90]
  rw [show (135 : ℝ) - 0 = 135 by norm_num]
  rw [fmod_eval 135 135 0 (by push_cast; norm_num) (by norm_num) (by norm_num)]
  congr 1
  ring

lemma koch_demo_ne_nil : Houses.koch_cusps 0 45 90 ≠ [] := by
  simp [Houses.koch_cusps]

/-- The demo Koch set (spacing 45°) fails the 30°-spacing detection, so
`planet_house_number` takes the interval-scanning branch on it. -/
lemma koch_demo_detect_fails :
    ¬∀ j < 11, |fmod ((Houses.koch_cusps 0 45 90).getD (j + 1) 0
      - (Houses.koch_cusps 0 45 90).getD 0 0
      - (((j : ℤ) + 1 : ℤ) : ℝ) * 30) 360| < 0.1 := by
  intro h
  have h0 := h 0 (by norm_num)
  rw [koch_demo_getD (0 + 1) (by norm_num), koch_demo_getD 0 (by norm_num)] at h0
  rw [show (45 : ℝ) * (((0 + 1 : ℕ)) : ℝ) = 45 by push_cast; norm_num,
    show (45 : ℝ) * (((0 : ℕ)) : ℝ) = 0 by push_cast; norm_num] at h0
  rw [fmod_eval 45 45 0 (by push_cast; norm_num) (by norm_num) (by norm_num),
    fmod_eval 0 0 0 (by push_cast; norm_num) (by norm_num) (by norm_num)] at h0
  rw [show (45 : ℝ) - 0 - ((((0 : ℕ) : ℤ) + 1 : ℤ) : ℝ) * 30 = 15 by
    push_cast; norm_num] at h0
  rw [fmod_eval 15 15 0 (by push_cast; norm_num) (by norm_num) (by norm_num)] at h0
  norm_num at h0

/-- On the demo Koch set the scan assigns longitude 180° — exactly the
house-5 cusp — to house 12: the first interval tried (house 12, from 135°
wrapping to 0°) already contains it. -/
lemma koch_demo_phn : Houses.planet_house_number 180 (Houses.koch_cusps 0 45 90) = 12 := by
  simp only [Houses.planet_house_number]
  rw [if_neg koch_demo_ne_nil, if_neg koch_demo_detect_fails]
  rw [show (List.range 12).reverse = [11, 10, 9, 8, 7, 6, 5, 4, 3, 2, 1, 0] from rfl]
  simp only [Houses.scanHouse]
  have hk11 : (Houses.koch_cusps 0 45 90).getD 11 0 = 135 := by
    rw [koch_demo_getD 11 (by norm_num)]
    rw [show (45 : ℝ) * ((11 : ℕ) : ℝ) = 495 by push_cast; norm_num]
    exact fmod_eval 495 135 1 (by push_cast; norm_num) (by norm_num) (by norm_num)
  have hk0 : (Houses.koch_cusps 0 45 90).getD ((11 + 1) % 12) 0 = 0 := by
    rw [show (11 + 1) % 12 = 0 from rfl, koch_demo_getD 0 (by norm_num)]
    rw [show (45 : ℝ) * ((0 : ℕ) : ℝ) = 0 by push_cast; norm_num]
    exact fmod_eval 0 0 0 (by push_cast; norm_num) (by norm_num) (by norm_num)
  rw [hk11, hk0]
  rw [if_neg (by norm_num : ¬((0 : ℝ) > 135))]
  rw [if_pos (show (180 : ℝ) ≥ 135 ∨ (180 : ℝ) < 0 from Or.inl (by norm_num))]
  norm_num

/-- On a strictly increasing cusp list, the descending interval scan assigns
a longitude lying exactly on cusp `j` to house `j + 1`: intervals are
pairwise disjoint, each closed at its start cusp and open at the next. -/
lemma scanHouse_strict_mono (cusps : List ℝ)
    (hmono : ∀ a b : ℕ, a < b → b < 12 → cusps.getD a 0 < cusps.getD b 0) :
    ∀ k : ℕ, k ≤ 11 → ∀ j : ℕ, j ≤ k →
      Houses.scanHouse (cusps.getD j 0) cusps ((List.range (k + 1)).reverse)
        = (j : ℤ) + 1 := by
  intro k
  induction k with
  | zero =>
    intro _ j hj
    have hj0 : j = 0 := Nat.le_zero.1 hj
    subst hj0
    rw [show (List.range (0 + 1)).reverse = [0] from rfl]
    simp only [Houses.scanHouse]
    rw [show ((0 : ℕ) + 1) % 12 = 1 from rfl]
    rw [if_pos (hmono 0 1 (by norm_num) (by norm_num))]
    rw [if_pos ⟨le_refl _, hmono 0 1 (by norm_num) (by norm_num)⟩]
  | succ n ih =>
    intro hk j hj
    have hlist : (List.range (n + 1 + 1)).reverse
        = (n + 1) :: (List.range (n + 1)).reverse := by
      rw [List.range_succ, List.reverse_append]
      rfl
    rw [hlist]
    simp only [Houses.scanHouse]
    by_cases hc : n = 10
    · subst hc
      rw [show (10 : ℕ) + 1 = 11 from rfl]
      rw [show ((11 : ℕ) + 1) % 12 = 0 from rfl]
      rw [if_neg (not_lt.2 (hmono 0 11 (by norm_num) (by norm_num)).le)]
      by_cases hj11 : j = 11
      · subst hj11
        rw [if_pos (Or.inl (le_refl _))]
      · have hjlt : j < 11 := by omega
        rw [if_neg (by
          rintro (h1 | h2)
          · exact absurd h1 (not_le.2 (hmono j 11 hjlt (by norm_num)))
          · rcases Nat.eq_zero_or_pos j with h0 | h0
            · rw [h0] at h2
              exact lt_irrefl _ h2
            · exact absurd h2 (not_lt.2 (hmono 0 j h0 (by omega)).le))]
        exact ih (by norm_num) j (by omega)
    · have hn11 : n + 1 < 11 := by omega
      rw [show ((n + 1 : ℕ) + 1) % 12 = n + 1 + 1 from Nat.mod_eq_of_lt (by omega)]
      rw [if_pos (hmono (n + 1) (n + 1 + 1) (by omega) (by omega))]
      by_cases hjn : j = n + 1
      · subst hjn
        rw [if_pos ⟨le_refl _, hmono (n + 1) (n + 1 + 1) (by omega) (by omega)⟩]
      · have hjlt : j < n + 1 := by omega
        rw [if_neg (fun hcc =>
          absurd hcc.1 (not_le.2 (hmono j (n + 1) hjlt (by omega))))]
        exact ih (by omega) j (by omega)

/-- On a 12-entry strictly increasing cusp list that fails the whole-sign
detection, `planet_house_number` assigns an on-cusp longitude to the house
starting at that cusp via the interval-scanning branch — the same closed-open
policy as the sign-arithmetic branch. -/
lemma phn_strict_mono_scan (cusps : List ℝ) (hlen : cusps.length = 12)
    (hmono : ∀ a b : ℕ, a < b → b < 12 → cusps.getD a 0 < cusps.getD b 0)
    (hdet : ¬∀ k < 11, |fmod (cusps.getD (k + 1) 0 - cusps.getD 0 0
      - (((k : ℤ) + 1 : ℤ) : ℝ) * 30) 360| < 0.1)
    (j : ℕ) (hj : j < 12) :
    Houses.planet_house_number (cusps.getD j 0) cusps = (j : ℤ) + 1 := by
  have hne : cusps ≠ [] := by
    intro h
    rw [h, List.length_nil] at hlen
    exact absurd hlen (by norm_num)
  simp only [Houses.planet_house_number]
  rw [if_neg hne, if_neg hdet]
  exact scanHouse_strict_mono cusps hmono 11 (le_refl 11) j (by omega)

/-- C7 counterexample. Part one: the two `planet_house_number` variants
disagree on the boundary policy — for the Equal House cusp set of Ascendant
340°, the longitude 340° (exactly on the house-1 cusp) is assigned house 1
by the `houses.py` variant but house 12 by the nested-module variant. Part
two: on the Koch cusp set at `lst = 0, lat = 45°, obl = 90°` (non-monotonic:
45°-spaced, wrapping past entry 8) the longitude 180°, exactly the house-5
cusp, is assigned house 12, whose own cusp is 135° ≠ 180° — so the on-cusp
closed-open guarantee fails on a cusp set produced by one of the four house
systems. -/
theorem C7_counterexample :
    (Houses.planet_house_number 340 (Houses.equal_house_cusps 340) = 1 ∧
     HousesNested.planet_house_number 340 (Houses.equal_house_cusps 340) = 12 ∧
     (1 : ℤ) ≠ 12) ∧
    ((Houses.koch_cusps 0 45 90).getD 4 0 = 180 ∧
     Houses.planet_house_number 180 (Houses.koch_cusps 0 45 90) = 12 ∧
     (Houses.koch_cusps 0 45 90).getD 11 0 = 135 ∧ (135 : ℝ) ≠ 180) := by
  constructor
  · have hf0 : ((List.range 12).map
        (fun i : ℕ => fmod ((340 : ℝ) + 30 * (i : ℝ)) 360)).getD 0 0 = 340 := by
      rw [range12_getD _ 0 (by norm_num)]
      rw [show (340 : ℝ) + 30 * ((0 : ℕ) : ℝ) = 340 by push_cast; ring]
      exact fmod_eval 340 340 0 (by push_cast; ring) (by norm_num) (by norm_num)
    refine ⟨?_, ?_, by norm_num⟩
    · have h := phn_mapped_cusps 340 (by norm_num) (by norm_num) 0 (by norm_num)
      rw [hf0] at h
      exact h
    · show HousesNested.scanNested 340 (Houses.equal_house_cusps 340)
        (List.range 12).reverse = 12
      rw [show (List.range 12).reverse = [11, 10, 9, 8, 7, 6, 5, 4, 3, 2, 1, 0] from rfl]
      simp only [HousesNested.scanNested]
      have h11 : (Houses.equal_house_cusps 340).getD 11 0 = 310 := by
        show ((List.range 12).map
          (fun i : ℕ => fmod ((340 : ℝ) + 30 * (i : ℝ)) 360)).getD 11 0 = 310
        rw [range12_getD _ 11 (by norm_num)]
        exact fmod_eval _ 310 1 (by push_cast; norm_num) (by norm_num) (by norm_num)
      rw [h11]
      rw [if_pos (Or.inl (by norm_num : (340 : ℝ) ≥ 310))]
      norm_num
  · refine ⟨?_, koch_demo_phn, ?_, by norm_num⟩
    · rw [koch_demo_getD 4 (by norm_num)]
      rw [show (45 : ℝ) * ((4 : ℕ) : ℝ) = 180 by push_cast; norm_num]
      exact fmod_eval 180 180 0 (by push_cast; norm_num) (by norm_num) (by norm_num)
    · rw [koch_demo_getD 11 (by norm_num)]
      rw [show (45 : ℝ) * ((11 : ℕ) : ℝ) = 495 by push_cast; norm_num]
      exact fmod_eval 495 135 1 (by push_cast; norm_num) (by norm_num) (by norm_num)

/-- C7 amended: every one of the four house systems hands
`planet_house_number` a 12-entry cusp list, and on every 12-entry cusp list
(the only non-empty lists the source indexes without raising `IndexError`)
`houses.py`'s `planet_house_number` returns a single house number in
`1..12`; a longitude exactly on a cusp is assigned the house starting at
that cusp by BOTH algorithmic branches: by the sign-arithmetic branch on the
Whole Sign and Equal House cusp sets of any Ascendant in `[0, 360)`, and by
the interval-scanning branch on every strictly increasing 12-entry cusp set
failing the whole-sign detection — the two branches agree on the closed-open
boundary policy on these domains (the non-monotonic sets Koch can produce,
and the nested module's variant, escape it: see the counterexample). -/
theorem C7_house_number :
    (∀ system : String, ∀ lst lat obl : ℝ,
      ((Houses.get_house_cusps system lst lat obl).1).length = 12) ∧
    (∀ lon : ℝ, ∀ cusps : List ℝ, cusps.length = 12 →
      1 ≤ Houses.planet_house_number lon cusps ∧
      Houses.planet_house_number lon cusps ≤ 12) ∧
    (∀ asc : ℝ, 0 ≤ asc → asc < 360 → ∀ j : ℕ, j < 12 →
      Houses.planet_house_number ((Houses.equal_house_cusps asc).getD j 0)
        (Houses.equal_house_cusps asc) = (j : ℤ) + 1 ∧
      Houses.planet_house_number ((Houses.whole_sign_cusps asc).getD j 0)
        (Houses.whole_sign_cusps asc) = (j : ℤ) + 1) ∧
    (∀ cusps : List ℝ, cusps.length = 12 →
      (∀ a b : ℕ, a < b → b < 12 → cusps.getD a 0 < cusps.getD b 0) →
      ¬(∀ k < 11, |fmod (cusps.getD (k + 1) 0 - cusps.getD 0 0
        - (((k : ℤ) + 1 : ℤ) : ℝ) * 30) 360| < 0.1) →
      ∀ j : ℕ, j < 12 →
        Houses.planet_house_number (cusps.getD j 0) cusps = (j : ℤ) + 1) := by
  refine ⟨get_house_cusps_length, ?_, ?_, ?_⟩
  · intro lon cusps hlen
    simp only [Houses.planet_house_number]
    split_ifs with h1 h2
    · exact ⟨le_refl 1, by norm_num⟩
    · have hm0 := Int.emod_nonneg (pyint (lon / 30) % 12
        - pyint (cusps.getD 0 0 / 30) % 12) (by norm_num : (12 : ℤ) ≠ 0)
      have hm1 := Int.emod_lt_of_pos (pyint (lon / 30) % 12
        - pyint (cusps.getD 0 0 / 30) % 12) (by norm_num : (0 : ℤ) < 12)
      constructor <;> omega
    · exact scanHouse_bounds lon cusps (List.range 12).reverse
        (by intro i hi
            rw [List.mem_reverse, List.mem_range] at hi
            exact hi)
  · intro asc ha0 ha1 j hj
    refine ⟨phn_mapped_cusps asc ha0 ha1 j hj, ?_⟩
    show Houses.planet_house_number
      (((List.range 12).map
        (fun i : ℕ => fmod ((pyint (asc / 30) : ℝ) * 30 + 30 * (i : ℝ)) 360)).getD j 0)
      ((List.range 12).map
        (fun i : ℕ => fmod ((pyint (asc / 30) : ℝ) * 30 + 30 * (i : ℝ)) 360)) = (j : ℤ) + 1
    have hf0 : (0 : ℤ) ≤ ⌊asc / 30⌋ := Int.floor_nonneg.2 (by positivity)
    have hf1 : ⌊asc / 30⌋ < 12 := Int.floor_lt.2 (by push_cast; linarith)
    rw [pyint_of_nonneg _ (by positivity)]
    refine phn_mapped_cusps (((⌊asc / 30⌋ : ℤ) : ℝ) * 30) ?_ ?_ j hj
    · have : (0 : ℝ) ≤ ((⌊asc / 30⌋ : ℤ) : ℝ) := by exact_mod_cast hf0
      linarith
    · have : ((⌊asc / 30⌋ : ℤ) : ℝ) ≤ 11 := by exact_mod_cast Int.lt_add_one_iff.1 hf1
      linarith
  · exact fun cusps hlen hmono hdet j hj => phn_strict_mono_scan cusps hlen hmono hdet j hj

/-- Witness for C7's amended theorem: on the 12-entry Equal House cusp set of
Ascendant 340° the result at longitude 340° is within `1..12` and the on-cusp
longitude 340° gets house 1 via the sign-arithmetic branch; on the strictly
increasing 20°-spaced cusp set (which fails the whole-sign detection) the
on-cusp entry 40° gets house 3 via the interval-scanning branch. -/
theorem C7_house_number_witness :
    (1 ≤ Houses.planet_house_number 340 (Houses.equal_house_cusps 340) ∧
      Houses.planet_house_number 340 (Houses.equal_house_cusps 340) ≤ 12) ∧
    Houses.planet_house_number ((Houses.equal_house_cusps 340).getD 0 0)
      (Houses.equal_house_cusps 340) = (0 : ℤ) + 1 ∧
    Houses.planet_house_number
      (((List.range 12).map (fun i : ℕ => 20 * (i : ℝ))).getD 2 0)
      ((List.range 12).map (fun i : ℕ => 20 * (i : ℝ))) = (2 : ℤ) + 1 :=
  ⟨C7_house_number.2.1 340 (Houses.equal_house_cusps 340)
      (by simp [Houses.equal_house_cusps]),
   (C7_house_number.2.2.1 340 (by norm_num) (by norm_num) 0 (by norm_num)).1,
   C7_house_number.2.2.2 ((List.range 12).map (fun i : ℕ => 20 * (i : ℝ)))
     (by simp)
     (by intro a b hab hb
         rw [range12_getD _ a (by omega), range12_getD _ b hb]
         have hcast : (a : ℝ) < (b : ℝ) := by exact_mod_cast hab
         linarith)
     (by intro h
         have h0 := h 0 (by norm_num)
         rw [range12_getD _ (0 + 1) (by norm_num), range12_getD _ 0 (by norm_num)] at h0
         rw [show (20 : ℝ) * (((0 + 1 : ℕ)) : ℝ) - 20 * (((0 : ℕ)) : ℝ)
             - ((((0 : ℕ) : ℤ) + 1 : ℤ) : ℝ) * 30 = -10 by push_cast; norm_num] at h0
         rw [fmod_eval (-10) 350 (-1) (by push_cast; norm_num) (by norm_num)
           (by norm_num)] at h0
         rw [show |(350 : ℝ)| = 350 from abs_of_nonneg (by norm_num)] at h0
         norm_num at h0)
     2 (by norm_num)⟩
